import Mathlib

/-!
Shallow embedding of the spreadsheet ingestion & normalization pipeline of the
mef-event-creator repository, as implemented by the `sync-sheets` edge function
(richest revision: `src/unnamed/part_004`).  JavaScript strings are modelled as
Lean `String`, `null`/`undefined` as `Option`, and JS truthiness of a string
value (`""`, `null`, `undefined` are falsy) explicitly.  The generic
`new Date(...)` fallback of the date parser is implementation-defined in the
host runtime and is therefore a parameter (`jsDateFallback`) of the embedding;
every claim settled here is independent of it.
-/

namespace MEF

/-- Whitespace characters removed by JS String.trim (ASCII fragment; the
source data is ASCII digits, separators and letters). -/
def isJsSpace (c : Char) : Bool :=
  c = ' ' || c = '\t' || c = '\n' || c = '\r' || c = '\x0b' || c = '\x0c'

/-- Models JS String.prototype.trim on the character list of a string. -/
def jsTrim (s : String) : String :=
  ⟨((s.data.dropWhile isJsSpace).reverse.dropWhile isJsSpace).reverse⟩

/-- Separator class `[.  slash  dash]` used by the date regexes in part_004. -/
def isSepChar (c : Char) : Bool :=
  c = '.' || c = '/' || c = '-'

/-- Models JS String.prototype.padStart(2, '0'). -/
def padStart2 (s : String) : String :=
  if s.length ≥ 2 then s else ⟨List.replicate (2 - s.length) '0' ++ s.data⟩

/-- Maximal-munch split of a character list into its leading digit run and the
rest; implements the backtracking-free part of the anchored regexes. -/
def splitDigits : List Char → List Char × List Char
  | [] => ([], [])
  | c :: cs =>
    if c.isDigit then
      let p := splitDigits cs
      (c :: p.1, p.2)
    else ([], c :: cs)

/-- Matches `(\d{1,2})` followed by a given single separator character,
consuming both; returns the digit group and the remainder.  Maximal munch
coincides with the regex because the separator is not a digit. -/
def matchG12Sep (sepOk : Char → Bool) (cs : List Char) : Option (List Char × List Char) :=
  if (splitDigits cs).1.length = 1 || (splitDigits cs).1.length = 2 then
    match (splitDigits cs).2 with
    | c :: rest => if sepOk c then some ((splitDigits cs).1, rest) else none
    | [] => none
  else none

/-- Matches `(\d{4})$`: exactly four digits ending the input. -/
def matchYear4End (cs : List Char) : Option (List Char) :=
  if (splitDigits cs).1.length = 4 && (splitDigits cs).2.isEmpty then
    some (splitDigits cs).1
  else none

/-- Matches `(\d{4})` followed by a separator, consuming both. -/
def matchYear4Sep (cs : List Char) : Option (List Char × List Char) :=
  if (splitDigits cs).1.length = 4 then
    match (splitDigits cs).2 with
    | c :: rest => if isSepChar c then some ((splitDigits cs).1, rest) else none
    | [] => none
  else none

/-- Matches `(\d{1,2})$`: one or two digits ending the input. -/
def matchG12End (cs : List Char) : Option (List Char) :=
  if ((splitDigits cs).1.length = 1 || (splitDigits cs).1.length = 2) &&
      (splitDigits cs).2.isEmpty then
    some (splitDigits cs).1
  else none

/-- The anchored regex `^(\d{1,2})[.  slash  dash](\d{1,2})[.  slash  dash](\d{4})$` of
parseFlexibleDate (groups: day, month, year). -/
def ddmmyyyyMatch (s : String) : Option (List Char × List Char × List Char) :=
  match matchG12Sep isSepChar s.data with
  | none => none
  | some (d, r1) =>
    match matchG12Sep isSepChar r1 with
    | none => none
    | some (m, r2) =>
      match matchYear4End r2 with
      | none => none
      | some y => some (d, m, y)

/-- The anchored regex `^(\d{4})[.  slash  dash](\d{1,2})[.  slash  dash](\d{1,2})$` of
parseFlexibleDate (groups: year, month, day). -/
def yyyymmddMatch (s : String) : Option (List Char × List Char × List Char) :=
  match matchYear4Sep s.data with
  | none => none
  | some (y, r1) =>
    match matchG12Sep isSepChar r1 with
    | none => none
    | some (m, r2) =>
      match matchG12End r2 with
      | none => none
      | some d => some (y, m, d)

/-- The anchored regex `^\d{4}-\d{2}-\d{2}$` (ISO fast path). -/
def isoDateCheck (s : String) : Bool :=
  match s.data with
  | [a, b, c, d, e, f, g, h, i, j] =>
    a.isDigit && b.isDigit && c.isDigit && d.isDigit && e = '-' &&
    f.isDigit && g.isDigit && h = '-' && i.isDigit && j.isDigit
  | _ => false

/-- Reassembly `year-month-day` with zero padding, as built by both regex
branches of parseFlexibleDate. -/
def isoAssemble (y m d : List Char) : String :=
  (⟨y⟩ : String) ++ "-" ++ padStart2 ⟨m⟩ ++ "-" ++ padStart2 ⟨d⟩

/-- Models `parseFlexibleDate` of part_004.  `jsDateFallback` models the
`new Date(trimmed)` generic parsing branch (host-runtime defined); the input
`none` models `null`/`undefined`, and the falsy check `!dateStr` also catches
the empty string. -/
def parseFlexibleDate (jsDateFallback : String → Option String)
    (dateStr : Option String) : Option String :=
  match dateStr with
  | none => none
  | some raw =>
    if raw = "" then none
    else if jsTrim raw = "" then none
    else if isoDateCheck (jsTrim raw) then some (jsTrim raw)
    else
      match ddmmyyyyMatch (jsTrim raw) with
      | some (d, m, y) => some (isoAssemble y m d)
      | none =>
        match yyyymmddMatch (jsTrim raw) with
        | some (y, m, d) => some (isoAssemble y m d)
        | none => jsDateFallback (jsTrim raw)

/-- The anchored regex `^(\d{1,2}):(\d{2})$` together with the subsequent
split on the colon (time branch 1). -/
def timeColonHM (cs : List Char) : Option (List Char × List Char) :=
  match matchG12Sep (fun c => c = ':') cs with
  | none => none
  | some (h, rest) =>
    match rest with
    | [a, b] => if a.isDigit && b.isDigit then some (h, [a, b]) else none
    | _ => none

/-- The anchored regex `^(\d{1,2})\.(\d{2})$` (time branch 2). -/
def timeDotHM (cs : List Char) : Option (List Char × List Char) :=
  match matchG12Sep (fun c => c = '.') cs with
  | none => none
  | some (h, rest) =>
    match rest with
    | [a, b] => if a.isDigit && b.isDigit then some (h, [a, b]) else none
    | _ => none

/-- The anchored regex `^(\d{1,2})(\d{2})$` (time branch 3): an all-digit
string of length 3 or 4, split greedily. -/
def timeNoSep (cs : List Char) : Option (List Char × List Char) :=
  if (splitDigits cs).2.isEmpty then
    if (splitDigits cs).1.length = 4 then
      some ((splitDigits cs).1.take 2, (splitDigits cs).1.drop 2)
    else if (splitDigits cs).1.length = 3 then
      some ((splitDigits cs).1.take 1, (splitDigits cs).1.drop 1)
    else none
  else none

/-- The anchored regex `^(\d{1,2}):(\d{2}):\d{2}$` (time branch 4, seconds
dropped). -/
def timeColonHMS (cs : List Char) : Option (List Char × List Char) :=
  match matchG12Sep (fun c => c = ':') cs with
  | none => none
  | some (h, rest) =>
    match rest with
    | [a, b, c, d, e] =>
      if a.isDigit && b.isDigit && c = ':' && d.isDigit && e.isDigit then
        some (h, [a, b])
      else none
    | _ => none

/-- Output assembly shared by all four time branches:
hours.padStart(2, '0') + ":" + minutes. -/
def mkHM (h m : List Char) : String :=
  padStart2 ⟨h⟩ ++ ":" ++ (⟨m⟩ : String)

/-- Models `parseFlexibleTime` of part_004, branches tried in source order. -/
def parseFlexibleTime (timeStr : Option String) : Option String :=
  match timeStr with
  | none => none
  | some raw =>
    if raw = "" then none
    else if jsTrim raw = "" then none
    else
      match timeColonHM (jsTrim raw).data with
      | some (h, m) => some (mkHM h m)
      | none =>
        match timeDotHM (jsTrim raw).data with
        | some (h, m) => some (mkHM h m)
        | none =>
          match timeNoSep (jsTrim raw).data with
          | some (h, m) => some (mkHM h m)
          | none =>
            match timeColonHMS (jsTrim raw).data with
            | some (h, m) => some (mkHM h m)
            | none => none

/-- A parsed CSV row as produced by Papa.parse with header mode: a mapping
from column header to cell text (an object; keys unique, first binding
wins on lookup). -/
structure Row where
  cells : List (String × String)
deriving Repr, DecidableEq

/-- JS property access `row.key`: the cell under a header, `none` when the
header is absent (undefined). -/
def Row.get (r : Row) (k : String) : Option String :=
  (r.cells.find? (fun p => p.1 = k)).map Prod.snd

/-- JS `||` on string-valued operands: keeps the left operand when it is
truthy (a non-empty string); empty string, null and undefined fall through.
When every operand is falsy JS yields the last falsy value; this model
yields `none` instead, which the sole consumer `getTrimmed` cannot
distinguish (it maps both `none` and `some ""` to `null`). -/
def jsOrS (a b : Option String) : Option String :=
  match a with
  | some s => if s = "" then b else some s
  | none => b

/-- The alias fallback chain `row.k1 || row.k2 || ... || row.kn` used by the
sync to read one logical field from a row. -/
def firstTruthy (r : Row) (keys : List String) : Option String :=
  keys.foldr (fun k acc => jsOrS (r.get k) acc) none

/-- Models `getTrimmed` of part_004: null, undefined and the empty string map
to null; otherwise trim, and a whitespace-only value maps to null. -/
def getTrimmed (value : Option String) : Option String :=
  match value with
  | none => none
  | some s =>
    if s = "" then none
    else
      let t := jsTrim s
      if t = "" then none else some t

/-- Field read for one logical field: the alias chain fed through
`getTrimmed`, exactly as each raw value is obtained in the sync. -/
def extractField (r : Row) (keys : List String) : Option String :=
  getTrimmed (firstTruthy r keys)

def programDayKeys : List String := ["dag", "Dag", "day", "Day"]
def programStartKeys : List String := ["start", "Start"]
def programEndKeys : List String := ["end", "End"]
def programTitleKeys : List String := ["tittel", "Tittel", "title", "Title"]
def programDescriptionKeys : List String :=
  ["beskrivelse", "Beskrivelse", "description", "Description"]
def programLocationKeys : List String := ["sted", "Sted", "location", "Location"]
def participantNameKeys : List String := ["navn", "Navn", "name", "Name"]
def participantCompanyKeys : List String := ["bedrift", "Bedrift", "company", "Company"]
def exhibitorCompanyKeys : List String :=
  ["bedriftsnavn", "Bedriftsnavn", "company", "Company"]
def exhibitorStandKeys : List String := ["standnummer", "Standnummer", "stand", "Stand"]

/-- Max file size constant of part_004 (10 MB). -/
def MAX_FILE_SIZE : Nat := 10 * 1024 * 1024

/-- Max rows per sheet constant of part_004. -/
def MAX_ROWS : Nat := 10000

/-- A record as inserted into the `program_items` table by the sync: exactly
the fields built at lines 306-315 of part_004 (note: no category field is
built there). -/
structure ProgramRecord where
  event_id : String
  external_id : String
  day : Option String
  start_time : Option String
  end_time : Option String
  title : String
  description : Option String
  location : Option String
deriving Repr, DecidableEq

/-- A record as inserted into the `participants` table. -/
structure ParticipantRecord where
  event_id : String
  external_id : String
  name : String
  company : Option String
deriving Repr, DecidableEq

/-- A record as inserted into the `exhibitors` table. -/
structure ExhibitorRecord where
  event_id : String
  external_id : String
  company_name : String
  stand_number : Option String
deriving Repr, DecidableEq

/-- One program row mapped to a record (the `.map` callback of the program
sync); `idx` is the 0-based index in the mapped list, `rowNum = idx + 1`. -/
def buildProgramItem (fb : String → Option String) (eventId : String)
    (row : Row) (idx : Nat) : ProgramRecord :=
  let dayRaw := extractField row programDayKeys
  let startRaw := extractField row programStartKeys
  let endRaw := extractField row programEndKeys
  let titleRaw := extractField row programTitleKeys
  let descriptionRaw := extractField row programDescriptionKeys
  let locationRaw := extractField row programLocationKeys
  { event_id := eventId
    external_id := "p" ++ toString (idx + 1)
    day := parseFlexibleDate fb dayRaw
    start_time := parseFlexibleTime startRaw
    end_time := parseFlexibleTime endRaw
    title := titleRaw.getD "Untitled"
    description := descriptionRaw
    location := locationRaw }

/-- One participant row mapped to a record. -/
def buildParticipant (eventId : String) (row : Row) (idx : Nat) :
    ParticipantRecord :=
  let nameRaw := extractField row participantNameKeys
  let companyRaw := extractField row participantCompanyKeys
  { event_id := eventId
    external_id := "d" ++ toString (idx + 1)
    name := nameRaw.getD "Unknown"
    company := companyRaw }

/-- One exhibitor row mapped to a record. -/
def buildExhibitor (eventId : String) (row : Row) (idx : Nat) :
    ExhibitorRecord :=
  let companyRaw := extractField row exhibitorCompanyKeys
  let standRaw := extractField row exhibitorStandKeys
  { event_id := eventId
    external_id := "u" ++ toString (idx + 1)
    company_name := companyRaw.getD "Unknown Company"
    stand_number := standRaw }

/-- JS truthiness of a nullable string field. -/
def jsTruthyS (v : Option String) : Bool :=
  match v with
  | some s => s ≠ ""
  | none => false

/-- The program validity filter: skip unless day, start_time and title are
truthy and the title is not the fallback sentinel. -/
def programValid (it : ProgramRecord) : Bool :=
  jsTruthyS it.day && jsTruthyS it.start_time &&
    it.title ≠ "" && it.title ≠ "Untitled"

/-- The participant validity filter. -/
def participantValid (it : ParticipantRecord) : Bool :=
  it.name ≠ "" && it.name ≠ "Unknown"

/-- The exhibitor validity filter. -/
def exhibitorValid (it : ExhibitorRecord) : Bool :=
  it.company_name ≠ "" && it.company_name ≠ "Unknown Company"

/-- Drops empty row objects and caps at the row limit, as in
`.filter(row => row && Object.keys(row).length > 0).slice(0, MAX_ROWS)`. -/
def prepRows (rows : List Row) : List Row :=
  (rows.filter (fun r => !r.cells.isEmpty)).take MAX_ROWS

/-- Maps rows with an explicit running index, as in
`.map((row, idx) => f(row, idx))`. -/
def mapWithIdx (f : Nat → Row → α) : Nat → List Row → List α
  | _, [] => []
  | i, r :: rs => f i r :: mapWithIdx f (i + 1) rs

/-- The mapped (pre-validation) program record list of one sync. -/
def programMapped (fb : String → Option String) (eventId : String)
    (rows : List Row) : List ProgramRecord :=
  mapWithIdx (fun i r => buildProgramItem fb eventId r i) 0 (prepRows rows)

/-- The program records that survive the validity filter and are inserted. -/
def syncProgramItems (fb : String → Option String) (eventId : String)
    (rows : List Row) : List ProgramRecord :=
  (programMapped fb eventId rows).filter programValid

/-- The mapped (pre-validation) participant record list of one sync. -/
def participantsMapped (eventId : String) (rows : List Row) :
    List ParticipantRecord :=
  mapWithIdx (fun i r => buildParticipant eventId r i) 0 (prepRows rows)

/-- The participant records that survive the validity filter. -/
def syncParticipants (eventId : String) (rows : List Row) :
    List ParticipantRecord :=
  (participantsMapped eventId rows).filter participantValid

/-- The mapped (pre-validation) exhibitor record list of one sync. -/
def exhibitorsMapped (eventId : String) (rows : List Row) :
    List ExhibitorRecord :=
  mapWithIdx (fun i r => buildExhibitor eventId r i) 0 (prepRows rows)

/-- The exhibitor records that survive the validity filter. -/
def syncExhibitors (eventId : String) (rows : List Row) :
    List ExhibitorRecord :=
  (exhibitorsMapped eventId rows).filter exhibitorValid

/-- The relational store as seen by the sync: the three entity-type tables,
the events table (only read), and an abstract remainder `other` standing for
every table the sync never names. -/
structure Store (α : Type) where
  program_items : List ProgramRecord
  participants : List ParticipantRecord
  exhibitors : List ExhibitorRecord
  events : List String
  other : α
deriving Repr, DecidableEq

/-- Outcome of one `fetch` call: either the promise rejected (network error
or the 30s AbortSignal timeout), or a response arrived. -/
inductive FetchOutcome where
  | netError (msg : String)
  | response (ok : Bool) (statusText : String) (contentLength : Option Nat)
      (body : String)
deriving Repr

/-- Per-entity-type slice of the SyncResult. -/
structure EntityResult where
  count : Nat
  errors : List String
deriving Repr, DecidableEq

/-- The `results` object returned by a completed sync. -/
structure SyncResults where
  program : EntityResult
  participants : EntityResult
  exhibitors : EntityResult
deriving Repr, DecidableEq

/-- Environment of one sync invocation: the three sheet fetch outcomes,
the CSV parser (Papa.parse with header mode — an external library, hence a
parameter), the store's insert verdicts, and the host date fallback. -/
structure SyncEnv where
  fetchProgram : FetchOutcome
  fetchDeltakere : FetchOutcome
  fetchUtstillere : FetchOutcome
  parseCsv : String → List Row
  programInsertError : Option String
  participantsInsertError : Option String
  exhibitorsInsertError : Option String
  jsDateFallback : String → Option String

/-- The `contentLength && parseInt(contentLength) > MAX_FILE_SIZE` guard. -/
def contentLengthTooBig (cl : Option Nat) : Bool :=
  match cl with
  | some n => n > MAX_FILE_SIZE
  | none => false

/-- The program entity-type pipeline (the first try block of part_004,
lines 242-331): fetch, limit checks, parse, delete-for-event, build, insert.
Any thrown error is caught and pushed to this entity type's errors list;
the store reflects exactly the mutations performed before the throw. -/
def runProgramSync (env : SyncEnv) (eventId : String) (db : Store α) :
    Store α × EntityResult :=
  match env.fetchProgram with
  | .netError msg => (db, ⟨0, [msg]⟩)
  | .response ok statusText contentLength body =>
    if !ok then (db, ⟨0, ["Failed to fetch Program sheet: " ++ statusText]⟩)
    else if contentLengthTooBig contentLength then
      (db, ⟨0, ["Program sheet exceeds maximum file size (10MB)"]⟩)
    else if body.length > MAX_FILE_SIZE then
      (db, ⟨0, ["Program sheet exceeds maximum file size (10MB)"]⟩)
    else
      let rows := env.parseCsv body
      if rows.length > MAX_ROWS then
        (db, ⟨0, ["Program sheet exceeds maximum row count (10000)"]⟩)
      else
        let db1 := { db with
          program_items := db.program_items.filter
            (fun p => p.event_id ≠ eventId) }
        let items := syncProgramItems env.jsDateFallback eventId rows
        match env.programInsertError with
        | some emsg => (db1, ⟨0, [emsg]⟩)
        | none =>
          ({ db1 with program_items := db1.program_items ++ items },
           ⟨items.length, []⟩)

/-- The participants entity-type pipeline (second try block, lines
333-401). -/
def runParticipantsSync (env : SyncEnv) (eventId : String) (db : Store α) :
    Store α × EntityResult :=
  match env.fetchDeltakere with
  | .netError msg => (db, ⟨0, [msg]⟩)
  | .response ok statusText contentLength body =>
    if !ok then (db, ⟨0, ["Failed to fetch Deltakere sheet: " ++ statusText]⟩)
    else if contentLengthTooBig contentLength then
      (db, ⟨0, ["Deltakere sheet exceeds maximum file size (10MB)"]⟩)
    else if body.length > MAX_FILE_SIZE then
      (db, ⟨0, ["Deltakere sheet exceeds maximum file size (10MB)"]⟩)
    else
      let rows := env.parseCsv body
      if rows.length > MAX_ROWS then
        (db, ⟨0, ["Deltakere sheet exceeds maximum row count (10000)"]⟩)
      else
        let db1 := { db with
          participants := db.participants.filter
            (fun p => p.event_id ≠ eventId) }
        let items := syncParticipants eventId rows
        match env.participantsInsertError with
        | some emsg => (db1, ⟨0, [emsg]⟩)
        | none =>
          ({ db1 with participants := db1.participants ++ items },
           ⟨items.length, []⟩)

/-- The exhibitors entity-type pipeline (third try block, lines 403-471). -/
def runExhibitorsSync (env : SyncEnv) (eventId : String) (db : Store α) :
    Store α × EntityResult :=
  match env.fetchUtstillere with
  | .netError msg => (db, ⟨0, [msg]⟩)
  | .response ok statusText contentLength body =>
    if !ok then (db, ⟨0, ["Failed to fetch Utstillere sheet: " ++ statusText]⟩)
    else if contentLengthTooBig contentLength then
      (db, ⟨0, ["Utstillere sheet exceeds maximum file size (10MB)"]⟩)
    else if body.length > MAX_FILE_SIZE then
      (db, ⟨0, ["Utstillere sheet exceeds maximum file size (10MB)"]⟩)
    else
      let rows := env.parseCsv body
      if rows.length > MAX_ROWS then
        (db, ⟨0, ["Utstillere sheet exceeds maximum row count (10000)"]⟩)
      else
        let db1 := { db with
          exhibitors := db.exhibitors.filter
            (fun p => p.event_id ≠ eventId) }
        let items := syncExhibitors eventId rows
        match env.exhibitorsInsertError with
        | some emsg => (db1, ⟨0, [emsg]⟩)
        | none =>
          ({ db1 with exhibitors := db1.exhibitors ++ items },
           ⟨items.length, []⟩)

/-- The three pipelines run in source order, each inside its own try/catch;
produces the final store and the aggregated results object. -/
def runSync (env : SyncEnv) (eventId : String) (db : Store α) :
    Store α × SyncResults :=
  let p := runProgramSync env eventId db
  let d := runParticipantsSync env eventId p.1
  let e := runExhibitorsSync env eventId d.1
  (e.1, ⟨p.2, d.2, e.2⟩)

/-- Hex digit class of the UUID regex (case-insensitive `[0-9a-f]`). -/
def isHexChar (c : Char) : Bool :=
  c.isDigit || ('a' ≤ c && c ≤ 'f') || ('A' ≤ c && c ≤ 'F')

/-- The anchored UUID regex of part_004 (groups 8-4-4-4-12). -/
def uuidCheck (s : String) : Bool :=
  match s.splitOn "-" with
  | [a, b, c, d, e] =>
    a.length = 8 && b.length = 4 && c.length = 4 && d.length = 4 &&
    e.length = 12 &&
    (a.data ++ b.data ++ c.data ++ d.data ++ e.data).all isHexChar
  | _ => false

/-- Character class `[a-zA-Z0-9-_]` of the sheet id capture group. -/
def isSheetIdChar (c : Char) : Bool :=
  c.isAlpha || c.isDigit || c = '-' || c = '_'

/-- The URL pattern head matched before the sheet id capture group. -/
def sheetsUrlHead : List Char :=
  "https://docs.google.com/spreadsheets/d/".data

/-- Models the sheetsUrl pattern match: checks the literal head and captures
the leading run of id characters after it (must be non-empty). -/
def extractSheetId (url : String) : Option String :=
  if url.data.take sheetsUrlHead.length = sheetsUrlHead then
    let idChars := (url.data.drop sheetsUrlHead.length).takeWhile isSheetIdChar
    if idChars.isEmpty then none else some ⟨idChars⟩
  else none

/-- Request-scoped facts the endpoint consults before syncing: the
Authorization header, the identity provider's verdict on the token, whether
the `user_roles` lookup found an admin row for that user, the parsed request
body fields, and the RLS-scoped `events` lookup verdict. -/
structure RequestCtx where
  authHeader : Option String
  authUser : Option String
  adminRole : Bool
  eventId : String
  sheetsUrl : String
  eventVisible : String → Bool

/-- Outcome of the whole endpoint: an early return with an HTTP status and
the untouched store, or a completed sync with the final store and results. -/
inductive SyncResponse (α : Type) where
  | early (status : Nat) (db : Store α)
  | completed (db : Store α) (results : SyncResults)

/-- The serve handler of part_004 in source order: 401 without header, 401 on
token rejection, 403 without admin role, 400 on malformed eventId, 400 on
malformed sheetsUrl, 404 when the event is not visible, else the three-way
sync.  Store mutation happens only inside `runSync`. -/
def handleSyncRequest (ctx : RequestCtx) (env : SyncEnv) (db : Store α) :
    SyncResponse α :=
  match ctx.authHeader with
  | none => .early 401 db
  | some _ =>
    match ctx.authUser with
    | none => .early 401 db
    | some _ =>
      if !ctx.adminRole then .early 403 db
      else if ctx.eventId = "" || !uuidCheck ctx.eventId then .early 400 db
      else if ctx.sheetsUrl = "" then .early 400 db
      else
        match extractSheetId ctx.sheetsUrl with
        | none => .early 400 db
        | some _ =>
          if !ctx.eventVisible ctx.eventId then .early 404 db
          else
            let r := runSync env ctx.eventId db
            .completed r.1 r.2

/-- Zero-padded two-digit rendering of a number below 100; used only to
state the spec-side notion of a canonical wall-clock time. -/
def natPad2 (n : Nat) : String :=
  if n < 10 then "0" ++ toString n else toString n

/-- Spec-side predicate, following the claim wording: the string is a
canonical zero-padded 24-hour wall-clock time `HH:MM` with hour 00-23 and
minute 00-59. -/
def specWallClockHM (s : String) : Prop :=
  ∃ h m : Nat, h < 24 ∧ m < 60 ∧ s = natPad2 h ++ ":" ++ natPad2 m

theorem data_mk (l : List Char) : (⟨l⟩ : String).data = l := rfl

theorem data_empty : ("" : String).data = [] := rfl

theorem data_append (s t : String) : (s ++ t).data = s.data ++ t.data := rfl

theorem mk_ne_empty {l : List Char} (h : l ≠ []) : (⟨l⟩ : String) ≠ "" := by
  intro hc
  exact h (congrArg String.data hc)

theorem sep_not_digit {c : Char} (h : isSepChar c = true) :
    c.isDigit = false := by
  simp only [isSepChar, Bool.or_eq_true, decide_eq_true_eq] at h
  rcases h with (h | h) | h <;> subst h <;> decide

theorem digit_not_space {c : Char} (h : c.isDigit = true) :
    isJsSpace c = false := by
  by_contra hc
  rw [Bool.not_eq_false] at hc
  simp only [isJsSpace, Bool.or_eq_true, decide_eq_true_eq] at hc
  rcases hc with ((((h1 | h1) | h1) | h1) | h1) | h1 <;> subst h1 <;>
    exact absurd h (by decide)

theorem sep_not_space {c : Char} (h : isSepChar c = true) :
    isJsSpace c = false := by
  simp only [isSepChar, Bool.or_eq_true, decide_eq_true_eq] at h
  rcases h with (h | h) | h <;> subst h <;> decide

theorem dropWhile_eq_self_of {p : Char → Bool} {l : List Char}
    (h : ∀ c ∈ l, p c = false) : l.dropWhile p = l := by
  cases l with
  | nil => rfl
  | cons a as => simp [List.dropWhile_cons, h a (by simp)]

theorem jsTrim_eq_self {l : List Char} (h : ∀ c ∈ l, isJsSpace c = false) :
    jsTrim ⟨l⟩ = ⟨l⟩ := by
  unfold jsTrim
  rw [data_mk, dropWhile_eq_self_of h,
    dropWhile_eq_self_of (fun c hc => h c (List.mem_reverse.mp hc)),
    List.reverse_reverse]

theorem splitDigits_fst_all (l : List Char) :
    ∀ c ∈ (splitDigits l).1, c.isDigit = true := by
  induction l with
  | nil => intro c hc; simp [splitDigits] at hc
  | cons a as ih =>
    intro c hc
    by_cases ha : a.isDigit
    · simp only [splitDigits, ha, if_pos] at hc
      rcases List.mem_cons.mp hc with h | h
      · exact h ▸ ha
      · exact ih c h
    · simp [splitDigits, ha] at hc

theorem splitDigits_append {g rest : List Char}
    (hall : ∀ c ∈ g, c.isDigit = true)
    (hhd : ∀ c, rest.head? = some c → c.isDigit = false) :
    splitDigits (g ++ rest) = (g, rest) := by
  induction g with
  | nil =>
    cases rest with
    | nil => rfl
    | cons x xs =>
      have hx : x.isDigit = false := hhd x rfl
      simp [splitDigits, hx]
  | cons a as ih =>
    have ha : a.isDigit = true := hall a (by simp)
    have ih' := ih (fun c hc => hall c (by simp [hc]))
    simp [splitDigits, ha, ih']

theorem matchG12Sep_exact {sepOk : Char → Bool} {g rest : List Char} {c : Char}
    (hall : ∀ x ∈ g, x.isDigit = true) (hlen : g.length = 1 ∨ g.length = 2)
    (hcd : c.isDigit = false) (hsep : sepOk c = true) :
    matchG12Sep sepOk (g ++ c :: rest) = some (g, rest) := by
  unfold matchG12Sep
  rw [splitDigits_append hall (fun x hx => by injection hx with hx; exact hx ▸ hcd)]
  have hcond : (decide (g.length = 1) || decide (g.length = 2)) = true := by
    rcases hlen with h | h <;> simp [h]
  simp [hcond, hsep]

theorem matchYear4End_exact {y : List Char}
    (hall : ∀ x ∈ y, x.isDigit = true) (hyl : y.length = 4) :
    matchYear4End y = some y := by
  unfold matchYear4End
  have : splitDigits (y ++ []) = (y, []) :=
    splitDigits_append hall (fun x hx => by injection hx)
  rw [List.append_nil] at this
  simp [this, hyl]

theorem matchYear4Sep_exact {y rest : List Char} {c : Char}
    (hall : ∀ x ∈ y, x.isDigit = true) (hyl : y.length = 4)
    (hcd : c.isDigit = false) (hsep : isSepChar c = true) :
    matchYear4Sep (y ++ c :: rest) = some (y, rest) := by
  unfold matchYear4Sep
  rw [splitDigits_append hall (fun x hx => by injection hx with hx; exact hx ▸ hcd)]
  simp [hyl, hsep]

theorem matchG12End_exact {g : List Char}
    (hall : ∀ x ∈ g, x.isDigit = true) (hlen : g.length = 1 ∨ g.length = 2) :
    matchG12End g = some g := by
  unfold matchG12End
  have : splitDigits (g ++ []) = (g, []) :=
    splitDigits_append hall (fun x hx => by injection hx)
  rw [List.append_nil] at this
  rw [this]
  have hcond : (decide (g.length = 1) || decide (g.length = 2)) = true := by
    rcases hlen with h | h <;> simp [h]
  simp [hcond]

theorem ddmmyyyyMatch_exact {d m y : List Char} {s1 s2 : Char}
    (hd : ∀ c ∈ d, c.isDigit = true) (hdl : d.length = 1 ∨ d.length = 2)
    (hm : ∀ c ∈ m, c.isDigit = true) (hml : m.length = 1 ∨ m.length = 2)
    (hy : ∀ c ∈ y, c.isDigit = true) (hyl : y.length = 4)
    (hs1 : isSepChar s1 = true) (hs2 : isSepChar s2 = true) :
    ddmmyyyyMatch ⟨d ++ s1 :: m ++ s2 :: y⟩ = some (d, m, y) := by
  unfold ddmmyyyyMatch
  rw [data_mk]
  have h1 : matchG12Sep isSepChar (d ++ s1 :: ((m ++ s2 :: y))) =
      some (d, m ++ s2 :: y) :=
    matchG12Sep_exact hd hdl (sep_not_digit hs1) hs1
  have h2 : matchG12Sep isSepChar (m ++ s2 :: y) = some (m, y) :=
    matchG12Sep_exact hm hml (sep_not_digit hs2) hs2
  have h3 : matchYear4End y = some y := matchYear4End_exact hy hyl
  rw [show d ++ s1 :: m ++ s2 :: y = d ++ s1 :: (m ++ s2 :: y) by simp]
  rw [h1]
  simp [h2, h3]

theorem yyyymmddMatch_exact {y m d : List Char} {s1 s2 : Char}
    (hy : ∀ c ∈ y, c.isDigit = true) (hyl : y.length = 4)
    (hm : ∀ c ∈ m, c.isDigit = true) (hml : m.length = 1 ∨ m.length = 2)
    (hd : ∀ c ∈ d, c.isDigit = true) (hdl : d.length = 1 ∨ d.length = 2)
    (hs1 : isSepChar s1 = true) (hs2 : isSepChar s2 = true) :
    yyyymmddMatch ⟨y ++ s1 :: m ++ s2 :: d⟩ = some (y, m, d) := by
  unfold yyyymmddMatch
  rw [data_mk]
  have h1 : matchYear4Sep (y ++ s1 :: (m ++ s2 :: d)) =
      some (y, m ++ s2 :: d) :=
    matchYear4Sep_exact hy hyl (sep_not_digit hs1) hs1
  have h2 : matchG12Sep isSepChar (m ++ s2 :: d) = some (m, d) :=
    matchG12Sep_exact hm hml (sep_not_digit hs2) hs2
  have h3 : matchG12End d = some d := matchG12End_exact hd hdl
  rw [show y ++ s1 :: m ++ s2 :: d = y ++ s1 :: (m ++ s2 :: d) by simp]
  rw [h1]
  simp [h2, h3]

theorem exists_one_of_len1 {l : List Char} (h : l.length = 1) :
    ∃ a, l = [a] := by
  match l, h with
  | [a], _ => exact ⟨a, rfl⟩

theorem exists_pair_of_len2 {l : List Char} (h : l.length = 2) :
    ∃ a b, l = [a, b] := by
  match l, h with
  | [a, b], _ => exact ⟨a, b, rfl⟩

theorem exists_quad_of_len4 {l : List Char} (h : l.length = 4) :
    ∃ a b c d, l = [a, b, c, d] := by
  match l, h with
  | [a, b, c, d], _ => exact ⟨a, b, c, d, rfl⟩

theorem iso_false_of_ddmm {d m y : List Char} {s1 : Char} (s2 : Char)
    (hdl : d.length = 1 ∨ d.length = 2) (hml : m.length = 1 ∨ m.length = 2)
    (hyl : y.length = 4) (hs1 : isSepChar s1 = true) :
    isoDateCheck ⟨d ++ s1 :: m ++ s2 :: y⟩ = false := by
  obtain ⟨y1, y2, y3, y4, hy⟩ := exists_quad_of_len4 hyl
  subst hy
  have hs1d : s1.isDigit = false := sep_not_digit hs1
  rcases hdl with hd1 | hd2
  · obtain ⟨a, hd⟩ := exists_one_of_len1 hd1
    subst hd
    rcases hml with hm1 | hm2
    · obtain ⟨b, hm⟩ := exists_one_of_len1 hm1
      subst hm; rfl
    · obtain ⟨b, c, hm⟩ := exists_pair_of_len2 hm2
      subst hm; rfl
  · obtain ⟨a, a2, hd⟩ := exists_pair_of_len2 hd2
    subst hd
    rcases hml with hm1 | hm2
    · obtain ⟨b, hm⟩ := exists_one_of_len1 hm1
      subst hm; rfl
    · obtain ⟨b, c, hm⟩ := exists_pair_of_len2 hm2
      subst hm
      rw [show ([a, a2] ++ s1 :: [b, c] ++ s2 :: [y1, y2, y3, y4]) =
        [a, a2, s1, b, c, s2, y1, y2, y3, y4] by simp]
      simp [isoDateCheck, hs1d]

theorem nospace_of_ddmm {d m y : List Char} {s1 s2 : Char}
    (hd : ∀ c ∈ d, c.isDigit = true) (hm : ∀ c ∈ m, c.isDigit = true)
    (hy : ∀ c ∈ y, c.isDigit = true)
    (hs1 : isSepChar s1 = true) (hs2 : isSepChar s2 = true) :
    ∀ c ∈ d ++ s1 :: m ++ s2 :: y, isJsSpace c = false := by
  intro c hc
  simp only [List.mem_append, List.mem_cons] at hc
  rcases hc with (hcd | hc1 | hcm) | hc2 | hcy
  · exact digit_not_space (hd c hcd)
  · exact hc1 ▸ sep_not_space hs1
  · exact digit_not_space (hm c hcm)
  · exact hc2 ▸ sep_not_space hs2
  · exact digit_not_space (hy c hcy)

theorem parseFlexibleDate_ddmmyyyy (fb : String → Option String)
    {d m y : List Char} {s1 s2 : Char}
    (hd : ∀ c ∈ d, c.isDigit = true) (hdl : d.length = 1 ∨ d.length = 2)
    (hm : ∀ c ∈ m, c.isDigit = true) (hml : m.length = 1 ∨ m.length = 2)
    (hy : ∀ c ∈ y, c.isDigit = true) (hyl : y.length = 4)
    (hs1 : isSepChar s1 = true) (hs2 : isSepChar s2 = true) :
    parseFlexibleDate fb (some ⟨d ++ s1 :: m ++ s2 :: y⟩) =
      some (isoAssemble y m d) := by
  have hne : (⟨d ++ s1 :: m ++ s2 :: y⟩ : String) ≠ "" := by
    apply mk_ne_empty
    simp
  have htrim : jsTrim ⟨d ++ s1 :: m ++ s2 :: y⟩ = ⟨d ++ s1 :: m ++ s2 :: y⟩ :=
    jsTrim_eq_self (nospace_of_ddmm hd hm hy hs1 hs2)
  have hiso := iso_false_of_ddmm s2 hdl hml hyl hs1
  have hmatch := ddmmyyyyMatch_exact hd hdl hm hml hy hyl hs1 hs2
  simp only [parseFlexibleDate]
  rw [if_neg hne]
  simp only [htrim]
  rw [if_neg hne]
  simp only [List.cons_append, List.append_assoc] at hiso hmatch
  simp [hiso, hmatch]

theorem ddmmyyyyMatch_none_y4 {y rest : List Char} {c : Char}
    (hy : ∀ x ∈ y, x.isDigit = true) (hyl : y.length = 4)
    (hcd : c.isDigit = false) :
    ddmmyyyyMatch ⟨y ++ c :: rest⟩ = none := by
  unfold ddmmyyyyMatch
  rw [data_mk]
  have hsplit : splitDigits (y ++ c :: rest) = (y, c :: rest) :=
    splitDigits_append hy (fun x hx => by injection hx with hx; exact hx ▸ hcd)
  unfold matchG12Sep
  rw [hsplit]
  simp [hyl]

theorem parseFlexibleDate_yyyymmdd (fb : String → Option String)
    {y m d : List Char} {s1 s2 : Char}
    (hy : ∀ c ∈ y, c.isDigit = true) (hyl : y.length = 4)
    (hm : ∀ c ∈ m, c.isDigit = true) (hml : m.length = 1 ∨ m.length = 2)
    (hd : ∀ c ∈ d, c.isDigit = true) (hdl : d.length = 1 ∨ d.length = 2)
    (hs1 : isSepChar s1 = true) (hs2 : isSepChar s2 = true) :
    parseFlexibleDate fb (some ⟨y ++ s1 :: m ++ s2 :: d⟩) =
      some (isoAssemble y m d) := by
  have hne : (⟨y ++ s1 :: m ++ s2 :: d⟩ : String) ≠ "" := by
    apply mk_ne_empty
    simp
  have htrim : jsTrim ⟨y ++ s1 :: m ++ s2 :: d⟩ = ⟨y ++ s1 :: m ++ s2 :: d⟩ :=
    jsTrim_eq_self (nospace_of_ddmm hy hm hd hs1 hs2)
  obtain ⟨y1, y2, y3, y4, hyq⟩ := exists_quad_of_len4 hyl
  by_cases hiso : isoDateCheck ⟨y ++ s1 :: m ++ s2 :: d⟩ = true
  · -- the ISO fast path fires: both separators are dashes and month and day
    -- are two digits, so pass-through coincides with reassembly
    subst hyq
    rcases hml with hm1 | hm2
    · obtain ⟨b, hmq⟩ := exists_one_of_len1 hm1
      subst hmq
      rcases hdl with hd1 | hd2
      · obtain ⟨a, hdq⟩ := exists_one_of_len1 hd1
        subst hdq
        exact absurd hiso (by simp [isoDateCheck])
      · obtain ⟨a, a2, hdq⟩ := exists_pair_of_len2 hd2
        subst hdq
        exact absurd hiso (by simp [isoDateCheck])
    · obtain ⟨b, b2, hmq⟩ := exists_pair_of_len2 hm2
      subst hmq
      rcases hdl with hd1 | hd2
      · obtain ⟨a, hdq⟩ := exists_one_of_len1 hd1
        subst hdq
        exact absurd hiso (by simp [isoDateCheck])
      · obtain ⟨a, a2, hdq⟩ := exists_pair_of_len2 hd2
        subst hdq
        rw [show ([y1, y2, y3, y4] ++ s1 :: [b, b2] ++ s2 :: [a, a2]) =
          [y1, y2, y3, y4, s1, b, b2, s2, a, a2] by simp] at hiso htrim hne ⊢
        have hiso0 := hiso
        rw [show isoDateCheck ⟨[y1, y2, y3, y4, s1, b, b2, s2, a, a2]⟩ =
          (y1.isDigit && y2.isDigit && y3.isDigit && y4.isDigit &&
           decide (s1 = '-') && b.isDigit && b2.isDigit &&
           decide (s2 = '-') && a.isDigit && a2.isDigit) from rfl] at hiso
        simp only [Bool.and_eq_true, decide_eq_true_eq] at hiso
        obtain ⟨⟨⟨⟨⟨⟨⟨⟨⟨-, -⟩, -⟩, -⟩, hs1e⟩, -⟩, -⟩, hs2e⟩, -⟩, -⟩ := hiso
        subst hs1e
        subst hs2e
        simp only [parseFlexibleDate]
        rw [if_neg hne]
        simp only [htrim]
        rw [if_neg hne]
        rw [if_pos hiso0]
        rfl
  · rw [Bool.not_eq_true] at hiso
    have hddmm : ddmmyyyyMatch ⟨y ++ s1 :: m ++ s2 :: d⟩ = none := by
      rw [show y ++ s1 :: m ++ s2 :: d = y ++ s1 :: (m ++ s2 :: d) by simp]
      exact ddmmyyyyMatch_none_y4 hy hyl (sep_not_digit hs1)
    have hmatch := yyyymmddMatch_exact hy hyl hm hml hd hdl hs1 hs2
    simp only [parseFlexibleDate]
    rw [if_neg hne]
    simp only [htrim]
    rw [if_neg hne]
    simp only [List.cons_append, List.append_assoc] at hiso hddmm hmatch
    simp [hiso, hddmm, hmatch]

/-- Claim C7: the Date Normalizer maps "2026-03-15", "15/03/2026",
"15.03.2026" and "2026/03/15" to "2026-03-15", and every input of the
ambiguous two-fields-then-4-digit-year form is resolved day-first: the first
matched field always lands in the day position of the assembled ISO string,
never in the month position, whatever the host date fallback does. -/
theorem C7_date_roundtrip_dayfirst :
    (∀ fb : String → Option String,
      parseFlexibleDate fb (some "2026-03-15") = some "2026-03-15" ∧
      parseFlexibleDate fb (some "15/03/2026") = some "2026-03-15" ∧
      parseFlexibleDate fb (some "15.03.2026") = some "2026-03-15" ∧
      parseFlexibleDate fb (some "2026/03/15") = some "2026-03-15") ∧
    (∀ (fb : String → Option String) (d m y : List Char) (s1 s2 : Char),
      (∀ c ∈ d, c.isDigit = true) → (d.length = 1 ∨ d.length = 2) →
      (∀ c ∈ m, c.isDigit = true) → (m.length = 1 ∨ m.length = 2) →
      (∀ c ∈ y, c.isDigit = true) → y.length = 4 →
      isSepChar s1 = true → isSepChar s2 = true →
      parseFlexibleDate fb (some ⟨d ++ s1 :: m ++ s2 :: y⟩) =
        some ((⟨y⟩ : String) ++ "-" ++ padStart2 ⟨m⟩ ++ "-" ++ padStart2 ⟨d⟩)) := by
  constructor
  · intro fb
    exact ⟨rfl, rfl, rfl, rfl⟩
  · intro fb d m y s1 s2 hd hdl hm hml hy hyl hs1 hs2
    exact parseFlexibleDate_ddmmyyyy fb hd hdl hm hml hy hyl hs1 hs2

/-- Witness for C7 at the concrete input "31/04/2026" (day-first even though
31 cannot be a month and April has no day 31). -/
theorem C7_date_roundtrip_dayfirst_witness :
    parseFlexibleDate (fun _ => none)
      (some ⟨['3', '1'] ++ '/' :: ['0', '4'] ++ '/' :: ['2', '0', '2', '6']⟩) =
      some ((⟨['2', '0', '2', '6']⟩ : String) ++ "-" ++
        padStart2 ⟨['0', '4']⟩ ++ "-" ++ padStart2 ⟨['3', '1']⟩) :=
  C7_date_roundtrip_dayfirst.2 (fun _ => none) ['3', '1'] ['0', '4']
    ['2', '0', '2', '6'] '/' '/' (by decide) (by decide) (by decide)
    (by decide) (by decide) (by decide) (by decide) (by decide)

/-- Claim C10: both regex branches of the Date Normalizer reassemble the
matched components purely syntactically with zero padding and no calendar
validation — any 1-2 digit day and month fields are accepted, so
"32.13.2026" yields "2026-13-32" rather than the unparseable signal. -/
theorem C10_date_syntactic_reassembly :
    (∀ (fb : String → Option String) (d m y : List Char) (s1 s2 : Char),
      (∀ c ∈ d, c.isDigit = true) → (d.length = 1 ∨ d.length = 2) →
      (∀ c ∈ m, c.isDigit = true) → (m.length = 1 ∨ m.length = 2) →
      (∀ c ∈ y, c.isDigit = true) → y.length = 4 →
      isSepChar s1 = true → isSepChar s2 = true →
      parseFlexibleDate fb (some ⟨d ++ s1 :: m ++ s2 :: y⟩) =
        some (isoAssemble y m d)) ∧
    (∀ (fb : String → Option String) (y m d : List Char) (s1 s2 : Char),
      (∀ c ∈ y, c.isDigit = true) → y.length = 4 →
      (∀ c ∈ m, c.isDigit = true) → (m.length = 1 ∨ m.length = 2) →
      (∀ c ∈ d, c.isDigit = true) → (d.length = 1 ∨ d.length = 2) →
      isSepChar s1 = true → isSepChar s2 = true →
      parseFlexibleDate fb (some ⟨y ++ s1 :: m ++ s2 :: d⟩) =
        some (isoAssemble y m d)) ∧
    (∀ fb : String → Option String,
      parseFlexibleDate fb (some "32.13.2026") = some "2026-13-32") := by
  refine ⟨?_, ?_, fun fb => rfl⟩
  · intro fb d m y s1 s2 hd hdl hm hml hy hyl hs1 hs2
    exact parseFlexibleDate_ddmmyyyy fb hd hdl hm hml hy hyl hs1 hs2
  · intro fb y m d s1 s2 hy hyl hm hml hd hdl hs1 hs2
    exact parseFlexibleDate_yyyymmdd fb hy hyl hm hml hd hdl hs1 hs2

/-- Witness for C10 at the concrete inputs "32.13.2026" (day-first branch)
and "2026.13.32" (year-first branch), both with out-of-range month and
day. -/
theorem C10_date_syntactic_reassembly_witness :
    parseFlexibleDate (fun _ => none)
      (some ⟨['3', '2'] ++ '.' :: ['1', '3'] ++ '.' :: ['2', '0', '2', '6']⟩) =
      some (isoAssemble ['2', '0', '2', '6'] ['1', '3'] ['3', '2']) ∧
    parseFlexibleDate (fun _ => none)
      (some ⟨['2', '0', '2', '6'] ++ '.' :: ['1', '3'] ++ '.' :: ['3', '2']⟩) =
      some (isoAssemble ['2', '0', '2', '6'] ['1', '3'] ['3', '2']) :=
  ⟨C10_date_syntactic_reassembly.1 (fun _ => none) ['3', '2'] ['1', '3']
    ['2', '0', '2', '6'] '.' '.' (by decide) (by decide) (by decide)
    (by decide) (by decide) (by decide) (by decide) (by decide),
   C10_date_syntactic_reassembly.2.1 (fun _ => none) ['2', '0', '2', '6']
    ['1', '3'] ['3', '2'] '.' '.' (by decide) (by decide) (by decide)
    (by decide) (by decide) (by decide) (by decide) (by decide)⟩

theorem matchG12Sep_inv {sepOk : Char → Bool} {cs h rest : List Char}
    (H : matchG12Sep sepOk cs = some (h, rest)) :
    (∀ c ∈ h, c.isDigit = true) ∧ (h.length = 1 ∨ h.length = 2) := by
  have hdig := splitDigits_fst_all cs
  unfold matchG12Sep at H
  rcases hsp : splitDigits cs with ⟨ds, rs⟩
  rw [hsp] at H hdig
  simp only at H hdig
  split at H
  case isTrue hc =>
    cases rs with
    | nil => simp at H
    | cons c rest2 =>
      dsimp only at H
      by_cases hok : sepOk c = true
      · rw [if_pos hok] at H
        simp only [Option.some.injEq, Prod.mk.injEq] at H
        obtain ⟨rfl, rfl⟩ := H
        exact ⟨hdig, by simpa using hc⟩
      · rw [if_neg hok] at H
        simp at H
  case isFalse => simp at H

theorem timeColonHM_inv {cs h m : List Char}
    (H : timeColonHM cs = some (h, m)) :
    (∀ c ∈ h, c.isDigit = true) ∧ (h.length = 1 ∨ h.length = 2) ∧
    ∃ a b, m = [a, b] ∧ a.isDigit = true ∧ b.isDigit = true := by
  unfold timeColonHM at H
  cases hsp : matchG12Sep (fun c => c = ':') cs with
  | none => simp [hsp] at H
  | some pr =>
    obtain ⟨h0, rest⟩ := pr
    simp only [hsp] at H
    obtain ⟨hdig, hlen⟩ := matchG12Sep_inv hsp
    match rest, H with
    | [a, b], H =>
      dsimp only at H
      by_cases hab : (a.isDigit && b.isDigit) = true
      · rw [if_pos hab] at H
        simp only [Option.some.injEq, Prod.mk.injEq] at H
        obtain ⟨rfl, rfl⟩ := H
        simp only [Bool.and_eq_true] at hab
        exact ⟨hdig, hlen, a, b, rfl, hab.1, hab.2⟩
      · rw [if_neg hab] at H
        simp at H
    | [], H => simp at H
    | [a], H => simp at H
    | a :: b :: c :: t, H => simp at H

theorem timeDotHM_inv {cs h m : List Char}
    (H : timeDotHM cs = some (h, m)) :
    (∀ c ∈ h, c.isDigit = true) ∧ (h.length = 1 ∨ h.length = 2) ∧
    ∃ a b, m = [a, b] ∧ a.isDigit = true ∧ b.isDigit = true := by
  unfold timeDotHM at H
  cases hsp : matchG12Sep (fun c => c = '.') cs with
  | none => simp [hsp] at H
  | some pr =>
    obtain ⟨h0, rest⟩ := pr
    simp only [hsp] at H
    obtain ⟨hdig, hlen⟩ := matchG12Sep_inv hsp
    match rest, H with
    | [a, b], H =>
      dsimp only at H
      by_cases hab : (a.isDigit && b.isDigit) = true
      · rw [if_pos hab] at H
        simp only [Option.some.injEq, Prod.mk.injEq] at H
        obtain ⟨rfl, rfl⟩ := H
        simp only [Bool.and_eq_true] at hab
        exact ⟨hdig, hlen, a, b, rfl, hab.1, hab.2⟩
      · rw [if_neg hab] at H
        simp at H
    | [], H => simp at H
    | [a], H => simp at H
    | a :: b :: c :: t, H => simp at H

theorem timeColonHMS_inv {cs h m : List Char}
    (H : timeColonHMS cs = some (h, m)) :
    (∀ c ∈ h, c.isDigit = true) ∧ (h.length = 1 ∨ h.length = 2) ∧
    ∃ a b, m = [a, b] ∧ a.isDigit = true ∧ b.isDigit = true := by
  unfold timeColonHMS at H
  cases hsp : matchG12Sep (fun c => c = ':') cs with
  | none => simp [hsp] at H
  | some pr =>
    obtain ⟨h0, rest⟩ := pr
    simp only [hsp] at H
    obtain ⟨hdig, hlen⟩ := matchG12Sep_inv hsp
    match rest, H with
    | [a, b, c, d, e], H =>
      dsimp only at H
      by_cases hab : (a.isDigit && b.isDigit && c = ':' && d.isDigit &&
          e.isDigit) = true
      · rw [if_pos hab] at H
        simp only [Option.some.injEq, Prod.mk.injEq] at H
        obtain ⟨rfl, rfl⟩ := H
        simp only [Bool.and_eq_true] at hab
        exact ⟨hdig, hlen, a, b, rfl, hab.1.1.1.1, hab.1.1.1.2⟩
      · rw [if_neg hab] at H
        simp at H
    | [], H => simp at H
    | [a], H => simp at H
    | [a, b], H => simp at H
    | [a, b, c], H => simp at H
    | [a, b, c, d], H => simp at H
    | a :: b :: c :: d :: e :: f :: t, H => simp at H

theorem timeNoSep_inv {cs h m : List Char}
    (H : timeNoSep cs = some (h, m)) :
    (∀ c ∈ h, c.isDigit = true) ∧ (h.length = 1 ∨ h.length = 2) ∧
    ∃ a b, m = [a, b] ∧ a.isDigit = true ∧ b.isDigit = true := by
  have hdig := splitDigits_fst_all cs
  unfold timeNoSep at H
  rcases hsp : splitDigits cs with ⟨ds, rs⟩
  rw [hsp] at H hdig
  simp only at H hdig
  split at H
  case isFalse => simp at H
  case isTrue hemp =>
    split at H
    case isTrue hlen4 =>
      simp only [Option.some.injEq, Prod.mk.injEq] at H
      obtain ⟨rfl, rfl⟩ := H
      refine ⟨fun c hc => hdig c (List.take_subset 2 _ hc), ?_, ?_⟩
      · right
        simp [List.length_take, hlen4]
      · have hml : (ds.drop 2).length = 2 := by
          simp [List.length_drop, hlen4]
        obtain ⟨a, b, hab⟩ := exists_pair_of_len2 hml
        refine ⟨a, b, hab, ?_, ?_⟩
        · exact hdig a (List.drop_subset 2 _ (hab ▸ List.mem_cons_self a [b]))
        · exact hdig b (List.drop_subset 2 _ (hab ▸ (by simp)))
    case isFalse =>
      split at H
      case isTrue hlen3 =>
        simp only [Option.some.injEq, Prod.mk.injEq] at H
        obtain ⟨rfl, rfl⟩ := H
        refine ⟨fun c hc => hdig c (List.take_subset 1 _ hc), ?_, ?_⟩
        · left
          simp [List.length_take, hlen3]
        · have hml : (ds.drop 1).length = 2 := by
            simp [List.length_drop, hlen3]
          obtain ⟨a, b, hab⟩ := exists_pair_of_len2 hml
          refine ⟨a, b, hab, ?_, ?_⟩
          · exact hdig a (List.drop_subset 1 _ (hab ▸ List.mem_cons_self a [b]))
          · exact hdig b (List.drop_subset 1 _ (hab ▸ (by simp)))
      case isFalse => simp at H

theorem mkHM_shape {h m : List Char} {a b : Char}
    (hh : ∀ c ∈ h, c.isDigit = true) (hl : h.length = 1 ∨ h.length = 2)
    (hm : m = [a, b]) :
    ∃ p q : Char, mkHM h m = ⟨[p, q, ':', a, b]⟩ ∧
      p.isDigit = true ∧ q.isDigit = true := by
  subst hm
  rcases hl with h1 | h2
  · obtain ⟨x, hx⟩ := exists_one_of_len1 h1
    subst hx
    exact ⟨'0', x, rfl, by decide, hh x (by simp)⟩
  · obtain ⟨x, y, hxy⟩ := exists_pair_of_len2 h2
    subst hxy
    exact ⟨x, y, rfl, hh x (by simp), hh y (by simp)⟩

theorem parseFlexibleTime_shape {ts : Option String} {out : String}
    (H : parseFlexibleTime ts = some out) :
    ∃ p q a b : Char, out = ⟨[p, q, ':', a, b]⟩ ∧ p.isDigit = true ∧
      q.isDigit = true ∧ a.isDigit = true ∧ b.isDigit = true := by
  unfold parseFlexibleTime at H
  match ts, H with
  | none, H => simp at H
  | some raw, H =>
    dsimp only at H
    by_cases hraw : raw = ""
    · rw [if_pos hraw] at H
      simp at H
    · rw [if_neg hraw] at H
      by_cases htr : jsTrim raw = ""
      · rw [if_pos htr] at H
        simp at H
      · rw [if_neg htr] at H
        cases h1 : timeColonHM (jsTrim raw).data with
        | some pr =>
          obtain ⟨h0, m0⟩ := pr
          simp only [h1, Option.some.injEq] at H
          obtain ⟨hdig, hlen, a, b, hab, ha, hb⟩ := timeColonHM_inv h1
          obtain ⟨p, q, hout, hp, hq⟩ := mkHM_shape hdig hlen hab
          exact ⟨p, q, a, b, H ▸ hout, hp, hq, ha, hb⟩
        | none =>
          simp only [h1] at H
          cases h2 : timeDotHM (jsTrim raw).data with
          | some pr =>
            obtain ⟨h0, m0⟩ := pr
            simp only [h2, Option.some.injEq] at H
            obtain ⟨hdig, hlen, a, b, hab, ha, hb⟩ := timeDotHM_inv h2
            obtain ⟨p, q, hout, hp, hq⟩ := mkHM_shape hdig hlen hab
            exact ⟨p, q, a, b, H ▸ hout, hp, hq, ha, hb⟩
          | none =>
            simp only [h2] at H
            cases h3 : timeNoSep (jsTrim raw).data with
            | some pr =>
              obtain ⟨h0, m0⟩ := pr
              simp only [h3, Option.some.injEq] at H
              obtain ⟨hdig, hlen, a, b, hab, ha, hb⟩ := timeNoSep_inv h3
              obtain ⟨p, q, hout, hp, hq⟩ := mkHM_shape hdig hlen hab
              exact ⟨p, q, a, b, H ▸ hout, hp, hq, ha, hb⟩
            | none =>
              simp only [h3] at H
              cases h4 : timeColonHMS (jsTrim raw).data with
              | some pr =>
                obtain ⟨h0, m0⟩ := pr
                simp only [h4, Option.some.injEq] at H
                obtain ⟨hdig, hlen, a, b, hab, ha, hb⟩ := timeColonHMS_inv h4
                obtain ⟨p, q, hout, hp, hq⟩ := mkHM_shape hdig hlen hab
                exact ⟨p, q, a, b, H ▸ hout, hp, hq, ha, hb⟩
              | none =>
                simp only [h4] at H
                simp at H

/-- Claim C6 (amended): for every input the Time Normalizer returns either
the unparseable signal or a zero-padded string of shape digit digit colon
digit digit; it performs no range validation of the hour (which the
counterexample shows may exceed 23) or minute (may exceed 59).  The five
round-trip examples all yield "09:30". -/
theorem C6_time_padded_no_range_check :
    (∀ (ts : Option String) (out : String), parseFlexibleTime ts = some out →
      ∃ p q a b : Char, out = ⟨[p, q, ':', a, b]⟩ ∧ p.isDigit = true ∧
        q.isDigit = true ∧ a.isDigit = true ∧ b.isDigit = true) ∧
    parseFlexibleTime (some "9:30") = some "09:30" ∧
    parseFlexibleTime (some "09:30") = some "09:30" ∧
    parseFlexibleTime (some "9.30") = some "09:30" ∧
    parseFlexibleTime (some "0930") = some "09:30" ∧
    parseFlexibleTime (some "09:30:00") = some "09:30" :=
  ⟨fun _ _ H => parseFlexibleTime_shape H, rfl, rfl, rfl, rfl, rfl⟩

/-- Witness for C6 applying the shape clause at the concrete input "9:30". -/
theorem C6_time_padded_no_range_check_witness :
    ∃ p q a b : Char, ("09:30" : String) = ⟨[p, q, ':', a, b]⟩ ∧
      p.isDigit = true ∧ q.isDigit = true ∧ a.isDigit = true ∧
      b.isDigit = true :=
  C6_time_padded_no_range_check.1 (some "9:30") "09:30" rfl

/-- Counterexample to C6 as stated: "25:61" is returned as "25:61", which is
not the unparseable signal and not a wall-clock time (hour 25, minute 61). -/
theorem C6_time_counterexample :
    parseFlexibleTime (some "25:61") = some "25:61" ∧
      ¬ specWallClockHM "25:61" := by
  refine ⟨rfl, ?_⟩
  rintro ⟨h, m, hh, hm, heq⟩
  have hall : ∀ h' < 24, ∀ m' < 60,
      ¬("25:61" = natPad2 h' ++ ":" ++ natPad2 m') := by decide
  exact hall h hh m hm heq

theorem firstTruthy_cons (r : Row) (k : String) (ks : List String) :
    firstTruthy r (k :: ks) = jsOrS (r.get k) (firstTruthy r ks) := rfl

theorem firstTruthy_skip_key (k v : String) (cells : List (String × String))
    (ks : List String) (hk : k ∉ ks) :
    firstTruthy ⟨(k, v) :: cells⟩ ks = firstTruthy ⟨cells⟩ ks := by
  induction ks with
  | nil => rfl
  | cons k2 ks2 ih =>
    have hne : k ≠ k2 := fun hc => hk (hc ▸ List.mem_cons_self k2 ks2)
    have hget : Row.get ⟨(k, v) :: cells⟩ k2 = Row.get ⟨cells⟩ k2 := by
      unfold Row.get
      have hd : (decide (k = k2)) = false := by simp [hne]
      simp [List.find?, hd]
    rw [firstTruthy_cons, firstTruthy_cons, hget,
      ih (fun hc => hk (List.mem_cons_of_mem k2 hc))]

theorem extractField_skip_key (k v : String) (cells : List (String × String))
    (ks : List String) (hk : k ∉ ks) :
    extractField ⟨(k, v) :: cells⟩ ks = extractField ⟨cells⟩ ks := by
  unfold extractField
  rw [firstTruthy_skip_key k v cells ks hk]

theorem getTrimmed_ne_empty {v : Option String} {s : String}
    (H : getTrimmed v = some s) : s ≠ "" := by
  unfold getTrimmed at H
  match v, H with
  | none, H => simp at H
  | some x, H =>
    dsimp only at H
    by_cases hx : x = ""
    · rw [if_pos hx] at H
      simp at H
    · rw [if_neg hx] at H
      by_cases ht : jsTrim x = ""
      · rw [if_pos ht] at H
        simp at H
      · rw [if_neg ht] at H
        simp only [Option.some.injEq] at H
        exact H ▸ ht

/-- Claim C5 (amended): the Field Extractor consults, in order, exactly the
listed case variants of each alias; it returns the trimmed value of the
first cell whose raw value is a non-empty string.  A present-but-empty cell
falls through to the next alias, but a whitespace-only cell is selected by
the truthiness chain and then trimmed to the missing sentinel, stopping
later aliases from being consulted; a header absent from the alias list
never influences the result. -/
theorem C5_field_extractor_chain :
    (∀ (r : Row) (k : String) (ks : List String),
      r.get k = none ∨ r.get k = some "" →
      extractField r (k :: ks) = extractField r ks) ∧
    (∀ (r : Row) (k : String) (ks : List String) (s : String),
      r.get k = some s → s ≠ "" →
      firstTruthy r (k :: ks) = some s ∧
      extractField r (k :: ks) = getTrimmed (some s)) ∧
    (∀ (r : Row) (k : String) (ks : List String) (s : String),
      r.get k = some s → s ≠ "" → jsTrim s = "" →
      extractField r (k :: ks) = none) ∧
    (∀ (k v : String) (cells : List (String × String)) (ks : List String),
      k ∉ ks →
      extractField ⟨(k, v) :: cells⟩ ks = extractField ⟨cells⟩ ks) := by
  refine ⟨?_, ?_, ?_, ?_⟩
  · intro r k ks h
    unfold extractField
    rw [firstTruthy_cons]
    rcases h with h | h <;> rw [h] <;> rfl
  · intro r k ks s hget hs
    have h1 : firstTruthy r (k :: ks) = some s := by
      rw [firstTruthy_cons, hget]
      unfold jsOrS
      dsimp only
      rw [if_neg hs]
    exact ⟨h1, by unfold extractField; rw [h1]⟩
  · intro r k ks s hget hs htr
    have h1 : firstTruthy r (k :: ks) = some s := by
      rw [firstTruthy_cons, hget]
      unfold jsOrS
      dsimp only
      rw [if_neg hs]
    unfold extractField
    rw [h1]
    unfold getTrimmed
    dsimp only
    rw [if_neg hs, if_pos htr]
  · intro k v cells ks hk
    exact extractField_skip_key k v cells ks hk

/-- Witness for C5: the four clauses applied at concrete rows. -/
theorem C5_field_extractor_chain_witness :
    extractField ⟨[("dag", ""), ("Day", "15.03.2026")]⟩
      ("dag" :: ["Dag", "day", "Day"]) =
      extractField ⟨[("dag", ""), ("Day", "15.03.2026")]⟩
        ["Dag", "day", "Day"] ∧
    firstTruthy ⟨[("dag", "x")]⟩ ("dag" :: ["Dag"]) = some "x" ∧
    extractField ⟨[("dag", " "), ("Day", "15.03.2026")]⟩
      ("dag" :: ["Dag", "day", "Day"]) = none ∧
    extractField ⟨[("category", "X"), ("dag", "d")]⟩ ["dag", "Dag"] =
      extractField ⟨[("dag", "d")]⟩ ["dag", "Dag"] :=
  ⟨C5_field_extractor_chain.1 ⟨[("dag", ""), ("Day", "15.03.2026")]⟩ "dag"
      ["Dag", "day", "Day"] (Or.inr (by decide)),
   (C5_field_extractor_chain.2.1 ⟨[("dag", "x")]⟩ "dag" ["Dag"] "x"
      (by decide) (by decide)).1,
   C5_field_extractor_chain.2.2.1 ⟨[("dag", " "), ("Day", "15.03.2026")]⟩
      "dag" ["Dag", "day", "Day"] " " (by decide) (by decide) (by decide),
   C5_field_extractor_chain.2.2.2 "category" "X" [("dag", "d")] ["dag", "Dag"]
      (by decide)⟩

/-- Counterexample to C5 as stated: with the Program day aliases, a row
whose `dag` cell is a single space and whose `Day` cell is "15.03.2026" —
a later alias does hold a non-empty value, yet the extractor yields the
missing sentinel (whitespace-only stops the chain); and a row headed by the
all-caps variant "DAY" is not matched at all (matching is not
case-insensitive). -/
theorem C5_field_extractor_counterexample :
    extractField ⟨[("dag", " "), ("Day", "15.03.2026")]⟩ programDayKeys =
      none ∧
    Row.get ⟨[("dag", " "), ("Day", "15.03.2026")]⟩ "Day" =
      some "15.03.2026" ∧
    extractField ⟨[("DAY", "15.03.2026")]⟩ programDayKeys = none ∧
    extractField ⟨[("Day", "15.03.2026")]⟩ programDayKeys =
      some "15.03.2026" := by
  refine ⟨by decide, by decide, by decide, by decide⟩

theorem mapWithIdx_get? {α : Type} (f : Nat → Row → α) (l : List Row) :
    ∀ (n i : Nat), (mapWithIdx f n l).get? i = (l.get? i).map (f (n + i)) := by
  induction l with
  | nil => intro n i; simp [mapWithIdx]
  | cons r rs ih =>
    intro n i
    cases i with
    | zero => simp [mapWithIdx]
    | succ j =>
      simp only [mapWithIdx, List.get?]
      rw [ih (n + 1) j, show n + 1 + j = n + (j + 1) by omega]

theorem isoAssemble_ne_empty (y m d : List Char) : isoAssemble y m d ≠ "" := by
  intro hc
  have h2 := congrArg String.data hc
  rw [show (isoAssemble y m d).data =
    (((y ++ ['-']) ++ (padStart2 ⟨m⟩).data) ++ ['-']) ++ (padStart2 ⟨d⟩).data
    from rfl, data_empty] at h2
  simp at h2

theorem parseFlexibleTime_ne_empty {ts : Option String} {s : String}
    (H : parseFlexibleTime ts = some s) : s ≠ "" := by
  obtain ⟨p, q, a, b, hout, -⟩ := parseFlexibleTime_shape H
  subst hout
  exact mk_ne_empty (by simp)

theorem parseFlexibleDate_ne_empty (fb : String → Option String)
    (hfb : ∀ t, fb t ≠ some "") {x : Option String} {s : String}
    (H : parseFlexibleDate fb x = some s) : s ≠ "" := by
  unfold parseFlexibleDate at H
  match x, H with
  | none, H => simp at H
  | some raw, H =>
    dsimp only at H
    by_cases hraw : raw = ""
    · rw [if_pos hraw] at H
      simp at H
    · rw [if_neg hraw] at H
      by_cases htr : jsTrim raw = ""
      · rw [if_pos htr] at H
        simp at H
      · rw [if_neg htr] at H
        by_cases hiso : isoDateCheck (jsTrim raw) = true
        · rw [if_pos hiso] at H
          simp only [Option.some.injEq] at H
          exact H ▸ htr
        · rw [if_neg hiso] at H
          cases h1 : ddmmyyyyMatch (jsTrim raw) with
          | some tr =>
            obtain ⟨d, m, y⟩ := tr
            simp only [h1, Option.some.injEq] at H
            exact H ▸ isoAssemble_ne_empty y m d
          | none =>
            simp only [h1] at H
            cases h2 : yyyymmddMatch (jsTrim raw) with
            | some tr =>
              obtain ⟨y, m, d⟩ := tr
              simp only [h2, Option.some.injEq] at H
              exact H ▸ isoAssemble_ne_empty y m d
            | none =>
              simp only [h2] at H
              intro hc
              exact hfb (jsTrim raw) (hc ▸ H)

theorem build_day (fb : String → Option String) (eid : String) (r : Row)
    (i : Nat) : (buildProgramItem fb eid r i).day =
      parseFlexibleDate fb (extractField r programDayKeys) := rfl

theorem build_start (fb : String → Option String) (eid : String) (r : Row)
    (i : Nat) : (buildProgramItem fb eid r i).start_time =
      parseFlexibleTime (extractField r programStartKeys) := rfl

theorem build_title (fb : String → Option String) (eid : String) (r : Row)
    (i : Nat) : (buildProgramItem fb eid r i).title =
      (extractField r programTitleKeys).getD "Untitled" := rfl

theorem programValid_build (fb : String → Option String)
    (hfb : ∀ t, fb t ≠ some "") (eid : String) (r : Row) (i : Nat) :
    programValid (buildProgramItem fb eid r i) = true ↔
      ((parseFlexibleDate fb (extractField r programDayKeys)).isSome ∧
       (parseFlexibleTime (extractField r programStartKeys)).isSome ∧
       extractField r programTitleKeys ≠ none ∧
       extractField r programTitleKeys ≠ some "Untitled") := by
  unfold programValid
  rw [build_day, build_start, build_title]
  simp only [Bool.and_eq_true, decide_eq_true_eq]
  rcases hday : parseFlexibleDate fb (extractField r programDayKeys) with _ | ds
  · simp [jsTruthyS]
  · have hds : ds ≠ "" := parseFlexibleDate_ne_empty fb hfb hday
    rcases hst : parseFlexibleTime (extractField r programStartKeys) with _ | ss
    · simp [jsTruthyS]
    · have hss : ss ≠ "" := parseFlexibleTime_ne_empty hst
      rcases ht : extractField r programTitleKeys with _ | u
      · simp [jsTruthyS, hds, hss]
      · have hu : u ≠ "" := by
          unfold extractField at ht
          exact getTrimmed_ne_empty ht
        simp [jsTruthyS, hds, hss, hu]

theorem build_name (eid : String) (r : Row) (i : Nat) :
    (buildParticipant eid r i).name =
      (extractField r participantNameKeys).getD "Unknown" := rfl

theorem participantValid_build (eid : String) (r : Row) (i : Nat) :
    participantValid (buildParticipant eid r i) = true ↔
      (extractField r participantNameKeys ≠ none ∧
       extractField r participantNameKeys ≠ some "Unknown") := by
  unfold participantValid
  rw [build_name]
  simp only [Bool.and_eq_true, decide_eq_true_eq]
  rcases ht : extractField r participantNameKeys with _ | u
  · simp
  · have hu : u ≠ "" := by
      unfold extractField at ht
      exact getTrimmed_ne_empty ht
    simp [hu]

theorem build_company (eid : String) (r : Row) (i : Nat) :
    (buildExhibitor eid r i).company_name =
      (extractField r exhibitorCompanyKeys).getD "Unknown Company" := rfl

theorem exhibitorValid_build (eid : String) (r : Row) (i : Nat) :
    exhibitorValid (buildExhibitor eid r i) = true ↔
      (extractField r exhibitorCompanyKeys ≠ none ∧
       extractField r exhibitorCompanyKeys ≠ some "Unknown Company") := by
  unfold exhibitorValid
  rw [build_company]
  simp only [Bool.and_eq_true, decide_eq_true_eq]
  rcases ht : extractField r exhibitorCompanyKeys with _ | u
  · simp
  · have hu : u ≠ "" := by
      unfold extractField at ht
      exact getTrimmed_ne_empty ht
    simp [hu]

/-- Claim C3 (amended): a mapped record is persisted exactly when every
required field normalized to a non-missing value AND the normalized required
text field is not the fallback placeholder ("Untitled" for program titles,
"Unknown" for participant names, "Unknown Company" for exhibitor company
names); optional fields never influence the decision, and records are kept
or dropped whole.  In the Program scenario with rows
(dag 15.03.2026, start 9.30, tittel Åpning) and (dag empty, start 10:00,
tittel Keynote), exactly the first row is persisted and the count is 1. -/
theorem C3_required_field_gate :
    (∀ fb : String → Option String, (∀ t, fb t ≠ some "") →
      ∀ (eid : String) (rows : List Row) (i : Nat) (r : Row),
      (prepRows rows).get? i = some r →
      (buildProgramItem fb eid r i ∈ syncProgramItems fb eid rows ↔
        ((parseFlexibleDate fb (extractField r programDayKeys)).isSome ∧
         (parseFlexibleTime (extractField r programStartKeys)).isSome ∧
         extractField r programTitleKeys ≠ none ∧
         extractField r programTitleKeys ≠ some "Untitled"))) ∧
    (∀ (eid : String) (rows : List Row) (i : Nat) (r : Row),
      (prepRows rows).get? i = some r →
      (buildParticipant eid r i ∈ syncParticipants eid rows ↔
        (extractField r participantNameKeys ≠ none ∧
         extractField r participantNameKeys ≠ some "Unknown"))) ∧
    (∀ (eid : String) (rows : List Row) (i : Nat) (r : Row),
      (prepRows rows).get? i = some r →
      (buildExhibitor eid r i ∈ syncExhibitors eid rows ↔
        (extractField r exhibitorCompanyKeys ≠ none ∧
         extractField r exhibitorCompanyKeys ≠ some "Unknown Company"))) ∧
    (∀ (fb : String → Option String) (eid : String),
      syncProgramItems fb eid
        [⟨[("dag", "15.03.2026"), ("start", "9.30"), ("tittel", "Åpning")]⟩,
         ⟨[("dag", ""), ("start", "10:00"), ("tittel", "Keynote")]⟩] =
      [{ event_id := eid, external_id := "p1", day := some "2026-03-15",
         start_time := some "09:30", end_time := none, title := "Åpning",
         description := none, location := none }]) := by
  refine ⟨?_, ?_, ?_, fun fb eid => rfl⟩
  · intro fb hfb eid rows i r hr
    have hmem : buildProgramItem fb eid r i ∈ programMapped fb eid rows := by
      apply List.get?_mem
      show (programMapped fb eid rows).get? i = _
      unfold programMapped
      rw [mapWithIdx_get?, hr, Nat.zero_add]
      rfl
    constructor
    · intro hin
      exact (programValid_build fb hfb eid r i).mp (List.of_mem_filter hin)
    · intro hc
      exact List.mem_filter.mpr
        ⟨hmem, (programValid_build fb hfb eid r i).mpr hc⟩
  · intro eid rows i r hr
    have hmem : buildParticipant eid r i ∈ participantsMapped eid rows := by
      apply List.get?_mem
      show (participantsMapped eid rows).get? i = _
      unfold participantsMapped
      rw [mapWithIdx_get?, hr, Nat.zero_add]
      rfl
    constructor
    · intro hin
      exact (participantValid_build eid r i).mp (List.of_mem_filter hin)
    · intro hc
      exact List.mem_filter.mpr ⟨hmem, (participantValid_build eid r i).mpr hc⟩
  · intro eid rows i r hr
    have hmem : buildExhibitor eid r i ∈ exhibitorsMapped eid rows := by
      apply List.get?_mem
      show (exhibitorsMapped eid rows).get? i = _
      unfold exhibitorsMapped
      rw [mapWithIdx_get?, hr, Nat.zero_add]
      rfl
    constructor
    · intro hin
      exact (exhibitorValid_build eid r i).mp (List.of_mem_filter hin)
    · intro hc
      exact List.mem_filter.mpr ⟨hmem, (exhibitorValid_build eid r i).mpr hc⟩

/-- Witness for C3: the Program clause applied at a concrete retained row
(all required fields parse, title not the placeholder), showing the built
record persisted. -/
theorem C3_required_field_gate_witness :
    buildProgramItem (fun _ => none) "e1"
        ⟨[("dag", "15.03.2026"), ("start", "9.30"), ("tittel", "Åpning")]⟩ 0 ∈
      syncProgramItems (fun _ => none) "e1"
        [⟨[("dag", "15.03.2026"), ("start", "9.30"), ("tittel", "Åpning")]⟩] :=
  (C3_required_field_gate.1 (fun _ => none) (fun _ => by simp) "e1"
    [⟨[("dag", "15.03.2026"), ("start", "9.30"), ("tittel", "Åpning")]⟩] 0
    ⟨[("dag", "15.03.2026"), ("start", "9.30"), ("tittel", "Åpning")]⟩
    (by rfl)).mpr (by refine ⟨by decide, by decide, by decide, by decide⟩)

/-- Counterexample to C3 as stated: a Program row whose required fields all
normalize to non-missing values (day 2026-03-15, start 09:30, title
"Untitled" as literal cell text) is nevertheless dropped whole, because the
validity filter cannot distinguish the real title "Untitled" from the
fallback placeholder. -/
theorem C3_required_field_counterexample :
    parseFlexibleDate (fun _ => none)
      (extractField ⟨[("dag", "15.03.2026"), ("start", "9:30"),
        ("tittel", "Untitled")]⟩ programDayKeys) = some "2026-03-15" ∧
    parseFlexibleTime
      (extractField ⟨[("dag", "15.03.2026"), ("start", "9:30"),
        ("tittel", "Untitled")]⟩ programStartKeys) = some "09:30" ∧
    extractField ⟨[("dag", "15.03.2026"), ("start", "9:30"),
      ("tittel", "Untitled")]⟩ programTitleKeys = some "Untitled" ∧
    syncProgramItems (fun _ => none) "e1"
      [⟨[("dag", "15.03.2026"), ("start", "9:30"), ("tittel", "Untitled")]⟩] =
      [] :=
  ⟨rfl, rfl, rfl, rfl⟩

/-- Claim C4 (amended): external ids are the entity prefix followed by the
1-based position among the mapped rows (the parsed rows that survive the
empty-row filter and the row cap, before validity filtering); the persisted
list is a sublist of the mapped list, so persisted ids are increasing but
may skip positions dropped by validation, and need not be gapless. -/
theorem C4_external_id_positions :
    (∀ (fb : String → Option String) (eid : String) (rows : List Row)
       (i : Nat) (it : ProgramRecord),
      (programMapped fb eid rows).get? i = some it →
      it.external_id = "p" ++ toString (i + 1)) ∧
    (∀ (eid : String) (rows : List Row) (i : Nat) (it : ParticipantRecord),
      (participantsMapped eid rows).get? i = some it →
      it.external_id = "d" ++ toString (i + 1)) ∧
    (∀ (eid : String) (rows : List Row) (i : Nat) (it : ExhibitorRecord),
      (exhibitorsMapped eid rows).get? i = some it →
      it.external_id = "u" ++ toString (i + 1)) ∧
    (∀ (fb : String → Option String) (eid : String) (rows : List Row),
      (syncProgramItems fb eid rows).Sublist (programMapped fb eid rows)) ∧
    (∀ (eid : String) (rows : List Row),
      (syncParticipants eid rows).Sublist (participantsMapped eid rows)) ∧
    (∀ (eid : String) (rows : List Row),
      (syncExhibitors eid rows).Sublist (exhibitorsMapped eid rows)) := by
  refine ⟨?_, ?_, ?_,
    fun fb eid rows => List.filter_sublist _,
    fun eid rows => List.filter_sublist _,
    fun eid rows => List.filter_sublist _⟩
  · intro fb eid rows i it hit
    unfold programMapped at hit
    rw [mapWithIdx_get?, Nat.zero_add] at hit
    cases hg : (prepRows rows).get? i with
    | none => rw [hg] at hit; simp at hit
    | some r =>
      rw [hg] at hit
      simp only [Option.map_some', Option.some.injEq] at hit
      rw [← hit]
      rfl
  · intro eid rows i it hit
    unfold participantsMapped at hit
    rw [mapWithIdx_get?, Nat.zero_add] at hit
    cases hg : (prepRows rows).get? i with
    | none => rw [hg] at hit; simp at hit
    | some r =>
      rw [hg] at hit
      simp only [Option.map_some', Option.some.injEq] at hit
      rw [← hit]
      rfl
  · intro eid rows i it hit
    unfold exhibitorsMapped at hit
    rw [mapWithIdx_get?, Nat.zero_add] at hit
    cases hg : (prepRows rows).get? i with
    | none => rw [hg] at hit; simp at hit
    | some r =>
      rw [hg] at hit
      simp only [Option.map_some', Option.some.injEq] at hit
      rw [← hit]
      rfl

/-- Witness for C4: the first clause applied at a concrete one-row sheet. -/
theorem C4_external_id_positions_witness :
    (buildProgramItem (fun _ => none) "e1"
      ⟨[("dag", "15.03.2026"), ("start", "9:30"), ("tittel", "A")]⟩
      0).external_id = "p" ++ toString (0 + 1) :=
  C4_external_id_positions.1 (fun _ => none) "e1"
    [⟨[("dag", "15.03.2026"), ("start", "9:30"), ("tittel", "A")]⟩] 0
    (buildProgramItem (fun _ => none) "e1"
      ⟨[("dag", "15.03.2026"), ("start", "9:30"), ("tittel", "A")]⟩ 0)
    (by rfl)

/-- Counterexample to C4 as stated: with a middle row dropped by
validation, the persisted external ids are p1 and p3 — not the gapless
sequence p1, p2 that the claim demands for a count of 2. -/
theorem C4_external_id_counterexample :
    (syncProgramItems (fun _ => none) "e1"
      [⟨[("dag", "15.03.2026"), ("start", "9:30"), ("tittel", "A")]⟩,
       ⟨[("dag", "x"), ("start", "9:30"), ("tittel", "B")]⟩,
       ⟨[("dag", "16.03.2026"), ("start", "9:30"), ("tittel", "C")]⟩]).map
      (fun it => it.external_id) = ["p1", "p3"] ∧
    (syncProgramItems (fun _ => none) "e1"
      [⟨[("dag", "15.03.2026"), ("start", "9:30"), ("tittel", "A")]⟩,
       ⟨[("dag", "x"), ("start", "9:30"), ("tittel", "B")]⟩,
       ⟨[("dag", "16.03.2026"), ("start", "9:30"), ("tittel", "C")]⟩]).length
      = 2 ∧
    ¬((syncProgramItems (fun _ => none) "e1"
      [⟨[("dag", "15.03.2026"), ("start", "9:30"), ("tittel", "A")]⟩,
       ⟨[("dag", "x"), ("start", "9:30"), ("tittel", "B")]⟩,
       ⟨[("dag", "16.03.2026"), ("start", "9:30"), ("tittel", "C")]⟩]).map
      (fun it => it.external_id) =
      (List.range 2).map (fun i => "p" ++ toString (i + 1))) := by
  refine ⟨by decide, by decide, by decide⟩

/-- Claim C8: contrary to the claim (and to the repository's own
program_items.category migration and category-consuming pages), the sync
never reads a `category` column and the built record carries no category
field: a `category` cell has no influence whatsoever on the persisted
record, which therefore always leaves the column NULL. -/
theorem C8_category_never_written :
    (∀ (fb : String → Option String) (eid : String)
       (cells : List (String × String)) (v : String) (i : Nat),
      buildProgramItem fb eid ⟨("category", v) :: cells⟩ i =
        buildProgramItem fb eid ⟨cells⟩ i) ∧
    (∀ (fb : String → Option String) (eid v : String),
      syncProgramItems fb eid
        [⟨[("dag", "15.03.2026"), ("start", "9:30"), ("tittel", "T"),
           ("category", v)]⟩] =
      [{ event_id := eid, external_id := "p1", day := some "2026-03-15",
         start_time := some "09:30", end_time := none, title := "T",
         description := none, location := none }]) := by
  constructor
  · intro fb eid cells v i
    unfold buildProgramItem
    rw [extractField_skip_key "category" v cells programDayKeys (by decide),
      extractField_skip_key "category" v cells programStartKeys (by decide),
      extractField_skip_key "category" v cells programEndKeys (by decide),
      extractField_skip_key "category" v cells programTitleKeys (by decide),
      extractField_skip_key "category" v cells programDescriptionKeys
        (by decide),
      extractField_skip_key "category" v cells programLocationKeys (by decide)]
  · intro fb eid v
    rfl

theorem runExhibitorsSync_snd {α β : Type} (env : SyncEnv) (eid : String)
    (dbA : Store α) (dbB : Store β) :
    (runExhibitorsSync env eid dbA).2 = (runExhibitorsSync env eid dbB).2 := by
  unfold runExhibitorsSync
  cases env.fetchUtstillere with
  | netError m => rfl
  | response ok st cl body =>
    dsimp only
    split
    · rfl
    · split
      · rfl
      · split
        · rfl
        · split
          · rfl
          · split
            · rfl
            · rfl

theorem runProgramSync_ok {α : Type} (env : SyncEnv) (eid : String)
    (db : Store α) {st : String} {cl : Option Nat} {body : String}
    (hf : env.fetchProgram = FetchOutcome.response true st cl body)
    (hcl : contentLengthTooBig cl = false)
    (hlen : body.length ≤ MAX_FILE_SIZE)
    (hrows : (env.parseCsv body).length ≤ MAX_ROWS)
    (hin : env.programInsertError = none) :
    (runProgramSync env eid db).2 =
      ⟨(syncProgramItems env.jsDateFallback eid (env.parseCsv body)).length,
       []⟩ := by
  unfold runProgramSync
  rw [hf]
  dsimp only
  rw [if_neg (by simp)]
  rw [if_neg (by simp [hcl])]
  rw [if_neg (Nat.not_lt.mpr hlen)]
  rw [if_neg (Nat.not_lt.mpr hrows)]
  rw [hin]

theorem runExhibitorsSync_ok {α : Type} (env : SyncEnv) (eid : String)
    (db : Store α) {st : String} {cl : Option Nat} {body : String}
    (hf : env.fetchUtstillere = FetchOutcome.response true st cl body)
    (hcl : contentLengthTooBig cl = false)
    (hlen : body.length ≤ MAX_FILE_SIZE)
    (hrows : (env.parseCsv body).length ≤ MAX_ROWS)
    (hin : env.exhibitorsInsertError = none) :
    (runExhibitorsSync env eid db).2 =
      ⟨(syncExhibitors eid (env.parseCsv body)).length, []⟩ := by
  unfold runExhibitorsSync
  rw [hf]
  dsimp only
  rw [if_neg (by simp)]
  rw [if_neg (by simp [hcl])]
  rw [if_neg (Nat.not_lt.mpr hlen)]
  rw [if_neg (Nat.not_lt.mpr hrows)]
  rw [hin]

theorem runParticipantsSync_httpError {α : Type} (env : SyncEnv)
    (eid : String) (db : Store α) {st : String} {cl : Option Nat}
    {body : String}
    (hf : env.fetchDeltakere = FetchOutcome.response false st cl body) :
    (runParticipantsSync env eid db).2 =
      ⟨0, ["Failed to fetch Deltakere sheet: " ++ st]⟩ := by
  unfold runParticipantsSync
  rw [hf]
  dsimp only
  rw [if_pos (by simp)]

theorem runProgramSync_netError {α : Type} (env : SyncEnv) (eid : String)
    (db : Store α) {msg : String}
    (hf : env.fetchProgram = FetchOutcome.netError msg) :
    (runProgramSync env eid db).2 = ⟨0, [msg]⟩ := by
  unfold runProgramSync
  rw [hf]

theorem runProgramSync_httpError {α : Type} (env : SyncEnv) (eid : String)
    (db : Store α) {st : String} {cl : Option Nat} {body : String}
    (hf : env.fetchProgram = FetchOutcome.response false st cl body) :
    (runProgramSync env eid db).2 =
      ⟨0, ["Failed to fetch Program sheet: " ++ st]⟩ := by
  unfold runProgramSync
  rw [hf]
  dsimp only
  rw [if_pos (by simp)]

theorem runProgramSync_clTooBig {α : Type} (env : SyncEnv) (eid : String)
    (db : Store α) {st : String} {cl : Option Nat} {body : String}
    (hf : env.fetchProgram = FetchOutcome.response true st cl body)
    (hcl : contentLengthTooBig cl = true) :
    (runProgramSync env eid db).2 =
      ⟨0, ["Program sheet exceeds maximum file size (10MB)"]⟩ := by
  unfold runProgramSync
  rw [hf]
  dsimp only
  rw [if_neg (by simp), if_pos hcl]

theorem runProgramSync_bodyTooBig {α : Type} (env : SyncEnv) (eid : String)
    (db : Store α) {st : String} {cl : Option Nat} {body : String}
    (hf : env.fetchProgram = FetchOutcome.response true st cl body)
    (hcl : contentLengthTooBig cl = false)
    (hlen : body.length > MAX_FILE_SIZE) :
    (runProgramSync env eid db).2 =
      ⟨0, ["Program sheet exceeds maximum file size (10MB)"]⟩ := by
  unfold runProgramSync
  rw [hf]
  dsimp only
  rw [if_neg (by simp), if_neg (by simp [hcl]), if_pos hlen]

theorem runProgramSync_rowsTooMany {α : Type} (env : SyncEnv) (eid : String)
    (db : Store α) {st : String} {cl : Option Nat} {body : String}
    (hf : env.fetchProgram = FetchOutcome.response true st cl body)
    (hcl : contentLengthTooBig cl = false)
    (hlen : body.length ≤ MAX_FILE_SIZE)
    (hrows : (env.parseCsv body).length > MAX_ROWS) :
    (runProgramSync env eid db).2 =
      ⟨0, ["Program sheet exceeds maximum row count (10000)"]⟩ := by
  unfold runProgramSync
  rw [hf]
  dsimp only
  rw [if_neg (by simp), if_neg (by simp [hcl]),
    if_neg (Nat.not_lt.mpr hlen), if_pos hrows]

theorem runProgramSync_insertError {α : Type} (env : SyncEnv) (eid : String)
    (db : Store α) {st : String} {cl : Option Nat} {body emsg : String}
    (hf : env.fetchProgram = FetchOutcome.response true st cl body)
    (hcl : contentLengthTooBig cl = false)
    (hlen : body.length ≤ MAX_FILE_SIZE)
    (hrows : (env.parseCsv body).length ≤ MAX_ROWS)
    (hin : env.programInsertError = some emsg) :
    (runProgramSync env eid db).2 = ⟨0, [emsg]⟩ := by
  unfold runProgramSync
  rw [hf]
  dsimp only
  rw [if_neg (by simp), if_neg (by simp [hcl]),
    if_neg (Nat.not_lt.mpr hlen), if_neg (Nat.not_lt.mpr hrows), hin]

theorem runParticipantsSync_netError {α : Type} (env : SyncEnv)
    (eid : String) (db : Store α) {msg : String}
    (hf : env.fetchDeltakere = FetchOutcome.netError msg) :
    (runParticipantsSync env eid db).2 = ⟨0, [msg]⟩ := by
  unfold runParticipantsSync
  rw [hf]

theorem runParticipantsSync_clTooBig {α : Type} (env : SyncEnv)
    (eid : String) (db : Store α) {st : String} {cl : Option Nat}
    {body : String}
    (hf : env.fetchDeltakere = FetchOutcome.response true st cl body)
    (hcl : contentLengthTooBig cl = true) :
    (runParticipantsSync env eid db).2 =
      ⟨0, ["Deltakere sheet exceeds maximum file size (10MB)"]⟩ := by
  unfold runParticipantsSync
  rw [hf]
  dsimp only
  rw [if_neg (by simp), if_pos hcl]

theorem runParticipantsSync_bodyTooBig {α : Type} (env : SyncEnv)
    (eid : String) (db : Store α) {st : String} {cl : Option Nat}
    {body : String}
    (hf : env.fetchDeltakere = FetchOutcome.response true st cl body)
    (hcl : contentLengthTooBig cl = false)
    (hlen : body.length > MAX_FILE_SIZE) :
    (runParticipantsSync env eid db).2 =
      ⟨0, ["Deltakere sheet exceeds maximum file size (10MB)"]⟩ := by
  unfold runParticipantsSync
  rw [hf]
  dsimp only
  rw [if_neg (by simp), if_neg (by simp [hcl]), if_pos hlen]

theorem runParticipantsSync_rowsTooMany {α : Type} (env : SyncEnv)
    (eid : String) (db : Store α) {st : String} {cl : Option Nat}
    {body : String}
    (hf : env.fetchDeltakere = FetchOutcome.response true st cl body)
    (hcl : contentLengthTooBig cl = false)
    (hlen : body.length ≤ MAX_FILE_SIZE)
    (hrows : (env.parseCsv body).length > MAX_ROWS) :
    (runParticipantsSync env eid db).2 =
      ⟨0, ["Deltakere sheet exceeds maximum row count (10000)"]⟩ := by
  unfold runParticipantsSync
  rw [hf]
  dsimp only
  rw [if_neg (by simp), if_neg (by simp [hcl]),
    if_neg (Nat.not_lt.mpr hlen), if_pos hrows]

theorem runParticipantsSync_insertError {α : Type} (env : SyncEnv)
    (eid : String) (db : Store α) {st : String} {cl : Option Nat}
    {body emsg : String}
    (hf : env.fetchDeltakere = FetchOutcome.response true st cl body)
    (hcl : contentLengthTooBig cl = false)
    (hlen : body.length ≤ MAX_FILE_SIZE)
    (hrows : (env.parseCsv body).length ≤ MAX_ROWS)
    (hin : env.participantsInsertError = some emsg) :
    (runParticipantsSync env eid db).2 = ⟨0, [emsg]⟩ := by
  unfold runParticipantsSync
  rw [hf]
  dsimp only
  rw [if_neg (by simp), if_neg (by simp [hcl]),
    if_neg (Nat.not_lt.mpr hlen), if_neg (Nat.not_lt.mpr hrows), hin]

theorem runParticipantsSync_ok {α : Type} (env : SyncEnv) (eid : String)
    (db : Store α) {st : String} {cl : Option Nat} {body : String}
    (hf : env.fetchDeltakere = FetchOutcome.response true st cl body)
    (hcl : contentLengthTooBig cl = false)
    (hlen : body.length ≤ MAX_FILE_SIZE)
    (hrows : (env.parseCsv body).length ≤ MAX_ROWS)
    (hin : env.participantsInsertError = none) :
    (runParticipantsSync env eid db).2 =
      ⟨(syncParticipants eid (env.parseCsv body)).length, []⟩ := by
  unfold runParticipantsSync
  rw [hf]
  dsimp only
  rw [if_neg (by simp), if_neg (by simp [hcl]),
    if_neg (Nat.not_lt.mpr hlen), if_neg (Nat.not_lt.mpr hrows), hin]

theorem runExhibitorsSync_netError {α : Type} (env : SyncEnv) (eid : String)
    (db : Store α) {msg : String}
    (hf : env.fetchUtstillere = FetchOutcome.netError msg) :
    (runExhibitorsSync env eid db).2 = ⟨0, [msg]⟩ := by
  unfold runExhibitorsSync
  rw [hf]

theorem runExhibitorsSync_httpError {α : Type} (env : SyncEnv)
    (eid : String) (db : Store α) {st : String} {cl : Option Nat}
    {body : String}
    (hf : env.fetchUtstillere = FetchOutcome.response false st cl body) :
    (runExhibitorsSync env eid db).2 =
      ⟨0, ["Failed to fetch Utstillere sheet: " ++ st]⟩ := by
  unfold runExhibitorsSync
  rw [hf]
  dsimp only
  rw [if_pos (by simp)]

theorem runExhibitorsSync_clTooBig {α : Type} (env : SyncEnv) (eid : String)
    (db : Store α) {st : String} {cl : Option Nat} {body : String}
    (hf : env.fetchUtstillere = FetchOutcome.response true st cl body)
    (hcl : contentLengthTooBig cl = true) :
    (runExhibitorsSync env eid db).2 =
      ⟨0, ["Utstillere sheet exceeds maximum file size (10MB)"]⟩ := by
  unfold runExhibitorsSync
  rw [hf]
  dsimp only
  rw [if_neg (by simp), if_pos hcl]

theorem runExhibitorsSync_bodyTooBig {α : Type} (env : SyncEnv)
    (eid : String) (db : Store α) {st : String} {cl : Option Nat}
    {body : String}
    (hf : env.fetchUtstillere = FetchOutcome.response true st cl body)
    (hcl : contentLengthTooBig cl = false)
    (hlen : body.length > MAX_FILE_SIZE) :
    (runExhibitorsSync env eid db).2 =
      ⟨0, ["Utstillere sheet exceeds maximum file size (10MB)"]⟩ := by
  unfold runExhibitorsSync
  rw [hf]
  dsimp only
  rw [if_neg (by simp), if_neg (by simp [hcl]), if_pos hlen]

theorem runExhibitorsSync_rowsTooMany {α : Type} (env : SyncEnv)
    (eid : String) (db : Store α) {st : String} {cl : Option Nat}
    {body : String}
    (hf : env.fetchUtstillere = FetchOutcome.response true st cl body)
    (hcl : contentLengthTooBig cl = false)
    (hlen : body.length ≤ MAX_FILE_SIZE)
    (hrows : (env.parseCsv body).length > MAX_ROWS) :
    (runExhibitorsSync env eid db).2 =
      ⟨0, ["Utstillere sheet exceeds maximum row count (10000)"]⟩ := by
  unfold runExhibitorsSync
  rw [hf]
  dsimp only
  rw [if_neg (by simp), if_neg (by simp [hcl]),
    if_neg (Nat.not_lt.mpr hlen), if_pos hrows]

theorem runExhibitorsSync_insertError {α : Type} (env : SyncEnv)
    (eid : String) (db : Store α) {st : String} {cl : Option Nat}
    {body emsg : String}
    (hf : env.fetchUtstillere = FetchOutcome.response true st cl body)
    (hcl : contentLengthTooBig cl = false)
    (hlen : body.length ≤ MAX_FILE_SIZE)
    (hrows : (env.parseCsv body).length ≤ MAX_ROWS)
    (hin : env.exhibitorsInsertError = some emsg) :
    (runExhibitorsSync env eid db).2 = ⟨0, [emsg]⟩ := by
  unfold runExhibitorsSync
  rw [hf]
  dsimp only
  rw [if_neg (by simp), if_neg (by simp [hcl]),
    if_neg (Nat.not_lt.mpr hlen), if_neg (Nat.not_lt.mpr hrows), hin]

theorem runProgramSync_snd_congr {α β : Type} (env env' : SyncEnv)
    (eid : String) (db : Store α) (db' : Store β)
    (h1 : env'.fetchProgram = env.fetchProgram)
    (h2 : env'.parseCsv = env.parseCsv)
    (h3 : env'.programInsertError = env.programInsertError)
    (h4 : env'.jsDateFallback = env.jsDateFallback) :
    (runProgramSync env' eid db').2 = (runProgramSync env eid db).2 := by
  unfold runProgramSync
  rw [h1, h2, h3, h4]
  cases env.fetchProgram with
  | netError m => rfl
  | response ok st cl body =>
    dsimp only
    split
    · rfl
    · split
      · rfl
      · split
        · rfl
        · split
          · rfl
          · split
            · rfl
            · rfl

theorem runParticipantsSync_snd_congr {α β : Type} (env env' : SyncEnv)
    (eid : String) (db : Store α) (db' : Store β)
    (h1 : env'.fetchDeltakere = env.fetchDeltakere)
    (h2 : env'.parseCsv = env.parseCsv)
    (h3 : env'.participantsInsertError = env.participantsInsertError) :
    (runParticipantsSync env' eid db').2 =
      (runParticipantsSync env eid db).2 := by
  unfold runParticipantsSync
  rw [h1, h2, h3]
  cases env.fetchDeltakere with
  | netError m => rfl
  | response ok st cl body =>
    dsimp only
    split
    · rfl
    · split
      · rfl
      · split
        · rfl
        · split
          · rfl
          · split
            · rfl
            · rfl

theorem runExhibitorsSync_snd_congr {α β : Type} (env env' : SyncEnv)
    (eid : String) (db : Store α) (db' : Store β)
    (h1 : env'.fetchUtstillere = env.fetchUtstillere)
    (h2 : env'.parseCsv = env.parseCsv)
    (h3 : env'.exhibitorsInsertError = env.exhibitorsInsertError) :
    (runExhibitorsSync env' eid db').2 = (runExhibitorsSync env eid db).2 := by
  unfold runExhibitorsSync
  rw [h1, h2, h3]
  cases env.fetchUtstillere with
  | netError m => rfl
  | response ok st cl body =>
    dsimp only
    split
    · rfl
    · split
      · rfl
      · split
        · rfl
        · split
          · rfl
          · split
            · rfl
            · rfl

/-- Claim C1: a failure inside one entity type's pipeline is caught at that
type's boundary and appended to that type's errors list, and the other two
pipelines are still attempted.  Clauses 1-3 state isolation in full
generality: each entity type's result component is a function of that
pipeline's own inputs alone, whatever happens in the other two pipelines or
the store.  The remaining clauses record, for each of the three entity
types, every throw site of its try block — fetch rejection (network error
or timeout), HTTP failure, declared content-length over the limit, body
over the limit, parsed row count over the cap, and insert error — plus the
fully-successful outcome.  Papa.parse with these options reports problems
in-band (ignored by the source) and the delete's error object is discarded,
so these are all the exceptions a pipeline can raise.  The final clause is
the claim's scenario: a Deltakere HTTP error with Program and Utstillere
succeeding yields non-empty participants.errors and the correct program and
exhibitors counts. -/
theorem C1_failure_isolation :
    (∀ (α β : Type) (env env' : SyncEnv) (eid : String) (db : Store α)
       (db' : Store β),
      env'.fetchProgram = env.fetchProgram →
      env'.parseCsv = env.parseCsv →
      env'.programInsertError = env.programInsertError →
      env'.jsDateFallback = env.jsDateFallback →
      (runSync env' eid db').2.program = (runSync env eid db).2.program) ∧
    (∀ (α β : Type) (env env' : SyncEnv) (eid : String) (db : Store α)
       (db' : Store β),
      env'.fetchDeltakere = env.fetchDeltakere →
      env'.parseCsv = env.parseCsv →
      env'.participantsInsertError = env.participantsInsertError →
      (runSync env' eid db').2.participants =
        (runSync env eid db).2.participants) ∧
    (∀ (α β : Type) (env env' : SyncEnv) (eid : String) (db : Store α)
       (db' : Store β),
      env'.fetchUtstillere = env.fetchUtstillere →
      env'.parseCsv = env.parseCsv →
      env'.exhibitorsInsertError = env.exhibitorsInsertError →
      (runSync env' eid db').2.exhibitors =
        (runSync env eid db).2.exhibitors) ∧
    (∀ (α : Type) (env : SyncEnv) (eid : String) (db : Store α)
       (msg : String),
      env.fetchProgram = FetchOutcome.netError msg →
      (runSync env eid db).2.program = ⟨0, [msg]⟩) ∧
    (∀ (α : Type) (env : SyncEnv) (eid : String) (db : Store α)
       (st : String) (cl : Option Nat) (body : String),
      env.fetchProgram = FetchOutcome.response false st cl body →
      (runSync env eid db).2.program =
        ⟨0, ["Failed to fetch Program sheet: " ++ st]⟩) ∧
    (∀ (α : Type) (env : SyncEnv) (eid : String) (db : Store α)
       (st : String) (cl : Option Nat) (body : String),
      env.fetchProgram = FetchOutcome.response true st cl body →
      contentLengthTooBig cl = true →
      (runSync env eid db).2.program =
        ⟨0, ["Program sheet exceeds maximum file size (10MB)"]⟩) ∧
    (∀ (α : Type) (env : SyncEnv) (eid : String) (db : Store α)
       (st : String) (cl : Option Nat) (body : String),
      env.fetchProgram = FetchOutcome.response true st cl body →
      contentLengthTooBig cl = false →
      body.length > MAX_FILE_SIZE →
      (runSync env eid db).2.program =
        ⟨0, ["Program sheet exceeds maximum file size (10MB)"]⟩) ∧
    (∀ (α : Type) (env : SyncEnv) (eid : String) (db : Store α)
       (st : String) (cl : Option Nat) (body : String),
      env.fetchProgram = FetchOutcome.response true st cl body →
      contentLengthTooBig cl = false →
      body.length ≤ MAX_FILE_SIZE →
      (env.parseCsv body).length > MAX_ROWS →
      (runSync env eid db).2.program =
        ⟨0, ["Program sheet exceeds maximum row count (10000)"]⟩) ∧
    (∀ (α : Type) (env : SyncEnv) (eid : String) (db : Store α)
       (st : String) (cl : Option Nat) (body emsg : String),
      env.fetchProgram = FetchOutcome.response true st cl body →
      contentLengthTooBig cl = false →
      body.length ≤ MAX_FILE_SIZE →
      (env.parseCsv body).length ≤ MAX_ROWS →
      env.programInsertError = some emsg →
      (runSync env eid db).2.program = ⟨0, [emsg]⟩) ∧
    (∀ (α : Type) (env : SyncEnv) (eid : String) (db : Store α)
       (st : String) (cl : Option Nat) (body : String),
      env.fetchProgram = FetchOutcome.response true st cl body →
      contentLengthTooBig cl = false →
      body.length ≤ MAX_FILE_SIZE →
      (env.parseCsv body).length ≤ MAX_ROWS →
      env.programInsertError = none →
      (runSync env eid db).2.program =
        ⟨(syncProgramItems env.jsDateFallback eid
            (env.parseCsv body)).length, []⟩) ∧
    (∀ (α : Type) (env : SyncEnv) (eid : String) (db : Store α)
       (msg : String),
      env.fetchDeltakere = FetchOutcome.netError msg →
      (runSync env eid db).2.participants = ⟨0, [msg]⟩) ∧
    (∀ (α : Type) (env : SyncEnv) (eid : String) (db : Store α)
       (st : String) (cl : Option Nat) (body : String),
      env.fetchDeltakere = FetchOutcome.response false st cl body →
      (runSync env eid db).2.participants =
        ⟨0, ["Failed to fetch Deltakere sheet: " ++ st]⟩) ∧
    (∀ (α : Type) (env : SyncEnv) (eid : String) (db : Store α)
       (st : String) (cl : Option Nat) (body : String),
      env.fetchDeltakere = FetchOutcome.response true st cl body →
      contentLengthTooBig cl = true →
      (runSync env eid db).2.participants =
        ⟨0, ["Deltakere sheet exceeds maximum file size (10MB)"]⟩) ∧
    (∀ (α : Type) (env : SyncEnv) (eid : String) (db : Store α)
       (st : String) (cl : Option Nat) (body : String),
      env.fetchDeltakere = FetchOutcome.response true st cl body →
      contentLengthTooBig cl = false →
      body.length > MAX_FILE_SIZE →
      (runSync env eid db).2.participants =
        ⟨0, ["Deltakere sheet exceeds maximum file size (10MB)"]⟩) ∧
    (∀ (α : Type) (env : SyncEnv) (eid : String) (db : Store α)
       (st : String) (cl : Option Nat) (body : String),
      env.fetchDeltakere = FetchOutcome.response true st cl body →
      contentLengthTooBig cl = false →
      body.length ≤ MAX_FILE_SIZE →
      (env.parseCsv body).length > MAX_ROWS →
      (runSync env eid db).2.participants =
        ⟨0, ["Deltakere sheet exceeds maximum row count (10000)"]⟩) ∧
    (∀ (α : Type) (env : SyncEnv) (eid : String) (db : Store α)
       (st : String) (cl : Option Nat) (body emsg : String),
      env.fetchDeltakere = FetchOutcome.response true st cl body →
      contentLengthTooBig cl = false →
      body.length ≤ MAX_FILE_SIZE →
      (env.parseCsv body).length ≤ MAX_ROWS →
      env.participantsInsertError = some emsg →
      (runSync env eid db).2.participants = ⟨0, [emsg]⟩) ∧
    (∀ (α : Type) (env : SyncEnv) (eid : String) (db : Store α)
       (st : String) (cl : Option Nat) (body : String),
      env.fetchDeltakere = FetchOutcome.response true st cl body →
      contentLengthTooBig cl = false →
      body.length ≤ MAX_FILE_SIZE →
      (env.parseCsv body).length ≤ MAX_ROWS →
      env.participantsInsertError = none →
      (runSync env eid db).2.participants =
        ⟨(syncParticipants eid (env.parseCsv body)).length, []⟩) ∧
    (∀ (α : Type) (env : SyncEnv) (eid : String) (db : Store α)
       (msg : String),
      env.fetchUtstillere = FetchOutcome.netError msg →
      (runSync env eid db).2.exhibitors = ⟨0, [msg]⟩) ∧
    (∀ (α : Type) (env : SyncEnv) (eid : String) (db : Store α)
       (st : String) (cl : Option Nat) (body : String),
      env.fetchUtstillere = FetchOutcome.response false st cl body →
      (runSync env eid db).2.exhibitors =
        ⟨0, ["Failed to fetch Utstillere sheet: " ++ st]⟩) ∧
    (∀ (α : Type) (env : SyncEnv) (eid : String) (db : Store α)
       (st : String) (cl : Option Nat) (body : String),
      env.fetchUtstillere = FetchOutcome.response true st cl body →
      contentLengthTooBig cl = true →
      (runSync env eid db).2.exhibitors =
        ⟨0, ["Utstillere sheet exceeds maximum file size (10MB)"]⟩) ∧
    (∀ (α : Type) (env : SyncEnv) (eid : String) (db : Store α)
       (st : String) (cl : Option Nat) (body : String),
      env.fetchUtstillere = FetchOutcome.response true st cl body →
      contentLengthTooBig cl = false →
      body.length > MAX_FILE_SIZE →
      (runSync env eid db).2.exhibitors =
        ⟨0, ["Utstillere sheet exceeds maximum file size (10MB)"]⟩) ∧
    (∀ (α : Type) (env : SyncEnv) (eid : String) (db : Store α)
       (st : String) (cl : Option Nat) (body : String),
      env.fetchUtstillere = FetchOutcome.response true st cl body →
      contentLengthTooBig cl = false →
      body.length ≤ MAX_FILE_SIZE →
      (env.parseCsv body).length > MAX_ROWS →
      (runSync env eid db).2.exhibitors =
        ⟨0, ["Utstillere sheet exceeds maximum row count (10000)"]⟩) ∧
    (∀ (α : Type) (env : SyncEnv) (eid : String) (db : Store α)
       (st : String) (cl : Option Nat) (body emsg : String),
      env.fetchUtstillere = FetchOutcome.response true st cl body →
      contentLengthTooBig cl = false →
      body.length ≤ MAX_FILE_SIZE →
      (env.parseCsv body).length ≤ MAX_ROWS →
      env.exhibitorsInsertError = some emsg →
      (runSync env eid db).2.exhibitors = ⟨0, [emsg]⟩) ∧
    (∀ (α : Type) (env : SyncEnv) (eid : String) (db : Store α)
       (st : String) (cl : Option Nat) (body : String),
      env.fetchUtstillere = FetchOutcome.response true st cl body →
      contentLengthTooBig cl = false →
      body.length ≤ MAX_FILE_SIZE →
      (env.parseCsv body).length ≤ MAX_ROWS →
      env.exhibitorsInsertError = none →
      (runSync env eid db).2.exhibitors =
        ⟨(syncExhibitors eid (env.parseCsv body)).length, []⟩) ∧
    (∀ (α : Type) (env : SyncEnv) (eventId : String) (db : Store α)
       (stP stD stU : String) (clP clD clU : Option Nat)
       (bodyP bodyD bodyU : String),
      env.fetchProgram = FetchOutcome.response true stP clP bodyP →
      contentLengthTooBig clP = false →
      bodyP.length ≤ MAX_FILE_SIZE →
      (env.parseCsv bodyP).length ≤ MAX_ROWS →
      env.programInsertError = none →
      env.fetchDeltakere = FetchOutcome.response false stD clD bodyD →
      env.fetchUtstillere = FetchOutcome.response true stU clU bodyU →
      contentLengthTooBig clU = false →
      bodyU.length ≤ MAX_FILE_SIZE →
      (env.parseCsv bodyU).length ≤ MAX_ROWS →
      env.exhibitorsInsertError = none →
      ((runSync env eventId db).2.participants.errors ≠ [] ∧
       (runSync env eventId db).2.program.count =
         (syncProgramItems env.jsDateFallback eventId
           (env.parseCsv bodyP)).length ∧
       (runSync env eventId db).2.exhibitors.count =
         (syncExhibitors eventId (env.parseCsv bodyU)).length)) := by
  refine ⟨?_, ?_, ?_, ?_, ?_, ?_, ?_, ?_, ?_, ?_, ?_, ?_, ?_, ?_, ?_, ?_,
    ?_, ?_, ?_, ?_, ?_, ?_, ?_, ?_, ?_⟩
  · intro α β env env' eid db db' h1 h2 h3 h4
    exact runProgramSync_snd_congr env env' eid db db' h1 h2 h3 h4
  · intro α β env env' eid db db' h1 h2 h3
    exact runParticipantsSync_snd_congr env env' eid _ _ h1 h2 h3
  · intro α β env env' eid db db' h1 h2 h3
    exact runExhibitorsSync_snd_congr env env' eid _ _ h1 h2 h3
  · intro α env eid db msg hf
    exact runProgramSync_netError env eid db hf
  · intro α env eid db st cl body hf
    exact runProgramSync_httpError env eid db hf
  · intro α env eid db st cl body hf hcl
    exact runProgramSync_clTooBig env eid db hf hcl
  · intro α env eid db st cl body hf hcl hlen
    exact runProgramSync_bodyTooBig env eid db hf hcl hlen
  · intro α env eid db st cl body hf hcl hlen hrows
    exact runProgramSync_rowsTooMany env eid db hf hcl hlen hrows
  · intro α env eid db st cl body emsg hf hcl hlen hrows hin
    exact runProgramSync_insertError env eid db hf hcl hlen hrows hin
  · intro α env eid db st cl body hf hcl hlen hrows hin
    exact runProgramSync_ok env eid db hf hcl hlen hrows hin
  · intro α env eid db msg hf
    exact runParticipantsSync_netError env eid _ hf
  · intro α env eid db st cl body hf
    exact runParticipantsSync_httpError env eid _ hf
  · intro α env eid db st cl body hf hcl
    exact runParticipantsSync_clTooBig env eid _ hf hcl
  · intro α env eid db st cl body hf hcl hlen
    exact runParticipantsSync_bodyTooBig env eid _ hf hcl hlen
  · intro α env eid db st cl body hf hcl hlen hrows
    exact runParticipantsSync_rowsTooMany env eid _ hf hcl hlen hrows
  · intro α env eid db st cl body emsg hf hcl hlen hrows hin
    exact runParticipantsSync_insertError env eid _ hf hcl hlen hrows hin
  · intro α env eid db st cl body hf hcl hlen hrows hin
    exact runParticipantsSync_ok env eid _ hf hcl hlen hrows hin
  · intro α env eid db msg hf
    exact runExhibitorsSync_netError env eid _ hf
  · intro α env eid db st cl body hf
    exact runExhibitorsSync_httpError env eid _ hf
  · intro α env eid db st cl body hf hcl
    exact runExhibitorsSync_clTooBig env eid _ hf hcl
  · intro α env eid db st cl body hf hcl hlen
    exact runExhibitorsSync_bodyTooBig env eid _ hf hcl hlen
  · intro α env eid db st cl body hf hcl hlen hrows
    exact runExhibitorsSync_rowsTooMany env eid _ hf hcl hlen hrows
  · intro α env eid db st cl body emsg hf hcl hlen hrows hin
    exact runExhibitorsSync_insertError env eid _ hf hcl hlen hrows hin
  · intro α env eid db st cl body hf hcl hlen hrows hin
    exact runExhibitorsSync_ok env eid _ hf hcl hlen hrows hin
  · intro α env eventId db stP stD stU clP clD clU bodyP bodyD bodyU
      hfP hclP hlenP hrowsP hinP hfD hfU hclU hlenU hrowsU hinU
    refine ⟨?_, ?_, ?_⟩
    · show (runParticipantsSync env eventId _).2.errors ≠ []
      rw [runParticipantsSync_httpError env eventId _ hfD]
      simp
    · show (runProgramSync env eventId db).2.count = _
      rw [runProgramSync_ok env eventId db hfP hclP hlenP hrowsP hinP]
    · show (runExhibitorsSync env eventId _).2.count = _
      rw [runExhibitorsSync_ok env eventId _ hfU hclU hlenU hrowsU hinU]

/-- Witness for C1, exercising three clauses concretely: the scenario
clause on an environment whose Deltakere fetch fails with an HTTP error
while the other two sheets succeed; the Program net-error recording clause;
and the Program isolation clause across a change of the Deltakere
outcome. -/
theorem C1_failure_isolation_witness :
    ((runSync
      { fetchProgram := FetchOutcome.response true "OK" none "P"
        fetchDeltakere := FetchOutcome.response false "Not Found" none ""
        fetchUtstillere := FetchOutcome.response true "OK" none "U"
        parseCsv := fun b =>
          if b = "P" then
            [⟨[("dag", "15.03.2026"), ("start", "9:30"), ("tittel", "A")]⟩]
          else if b = "U" then
            [⟨[("bedriftsnavn", "Firm")]⟩, ⟨[("bedriftsnavn", " ")]⟩]
          else []
        programInsertError := none
        participantsInsertError := none
        exhibitorsInsertError := none
        jsDateFallback := fun _ => none }
      "e1" (Store.mk [] [] [] ["e1"] ())).2.participants.errors ≠ [] ∧
     (runSync
      { fetchProgram := FetchOutcome.response true "OK" none "P"
        fetchDeltakere := FetchOutcome.response false "Not Found" none ""
        fetchUtstillere := FetchOutcome.response true "OK" none "U"
        parseCsv := fun b =>
          if b = "P" then
            [⟨[("dag", "15.03.2026"), ("start", "9:30"), ("tittel", "A")]⟩]
          else if b = "U" then
            [⟨[("bedriftsnavn", "Firm")]⟩, ⟨[("bedriftsnavn", " ")]⟩]
          else []
        programInsertError := none
        participantsInsertError := none
        exhibitorsInsertError := none
        jsDateFallback := fun _ => none }
      "e1" (Store.mk [] [] [] ["e1"] ())).2.program.count =
        (syncProgramItems (fun _ => none) "e1"
          [⟨[("dag", "15.03.2026"), ("start", "9:30"),
             ("tittel", "A")]⟩]).length ∧
     (runSync
      { fetchProgram := FetchOutcome.response true "OK" none "P"
        fetchDeltakere := FetchOutcome.response false "Not Found" none ""
        fetchUtstillere := FetchOutcome.response true "OK" none "U"
        parseCsv := fun b =>
          if b = "P" then
            [⟨[("dag", "15.03.2026"), ("start", "9:30"), ("tittel", "A")]⟩]
          else if b = "U" then
            [⟨[("bedriftsnavn", "Firm")]⟩, ⟨[("bedriftsnavn", " ")]⟩]
          else []
        programInsertError := none
        participantsInsertError := none
        exhibitorsInsertError := none
        jsDateFallback := fun _ => none }
      "e1" (Store.mk [] [] [] ["e1"] ())).2.exhibitors.count =
        (syncExhibitors "e1"
          [⟨[("bedriftsnavn", "Firm")]⟩, ⟨[("bedriftsnavn", " ")]⟩]).length) ∧
    (runSync
      { fetchProgram := FetchOutcome.netError "boom"
        fetchDeltakere := FetchOutcome.netError "x"
        fetchUtstillere := FetchOutcome.netError "x"
        parseCsv := fun _ => []
        programInsertError := none
        participantsInsertError := none
        exhibitorsInsertError := none
        jsDateFallback := fun _ => none }
      "e1" (Store.mk [] [] [] ["e1"] ())).2.program = ⟨0, ["boom"]⟩ ∧
    (runSync
      { fetchProgram := FetchOutcome.netError "boom"
        fetchDeltakere := FetchOutcome.response false "Gone" none ""
        fetchUtstillere := FetchOutcome.netError "x"
        parseCsv := fun _ => []
        programInsertError := none
        participantsInsertError := none
        exhibitorsInsertError := none
        jsDateFallback := fun _ => none }
      "e1" (Store.mk [] [] [] [] ())).2.program =
    (runSync
      { fetchProgram := FetchOutcome.netError "boom"
        fetchDeltakere := FetchOutcome.netError "x"
        fetchUtstillere := FetchOutcome.netError "x"
        parseCsv := fun _ => []
        programInsertError := none
        participantsInsertError := none
        exhibitorsInsertError := none
        jsDateFallback := fun _ => none }
      "e1" (Store.mk [] [] [] ["e1"] ())).2.program :=
  ⟨C1_failure_isolation.2.2.2.2.2.2.2.2.2.2.2.2.2.2.2.2.2.2.2.2.2.2.2.2
    Unit _ "e1" (Store.mk [] [] [] ["e1"] ())
    "OK" "Not Found" "OK" none none none "P" "" "U"
    rfl rfl (by decide) (by decide) rfl rfl rfl rfl (by decide) (by decide)
    rfl,
   C1_failure_isolation.2.2.2.1 Unit _ "e1" (Store.mk [] [] [] ["e1"] ())
    "boom" rfl,
   C1_failure_isolation.1 Unit Unit _ _ "e1"
    (Store.mk [] [] [] ["e1"] ()) (Store.mk [] [] [] [] ())
    rfl rfl rfl rfl⟩

/-- Claim C2: an authenticated caller without the admin role receives the
403 response, and the handler returns with the store exactly as it was —
no delete or insert of any entity table has been issued (the sync, the only
mutating step, is reached only after the role gate). -/
theorem C2_admin_gate_403_no_mutation :
    ∀ (α : Type) (ctx : RequestCtx) (env : SyncEnv) (db : Store α)
      (hd uid : String),
      ctx.authHeader = some hd →
      ctx.authUser = some uid →
      ctx.adminRole = false →
      handleSyncRequest ctx env db = SyncResponse.early 403 db := by
  intro α ctx env db hd uid h1 h2 h3
  unfold handleSyncRequest
  rw [h1]
  dsimp only
  rw [h2]
  dsimp only
  rw [h3]
  rfl

/-- Witness for C2: a concrete request context with a valid credential and
no admin role. -/
theorem C2_admin_gate_403_no_mutation_witness :
    handleSyncRequest
      { authHeader := some "Bearer tok", authUser := some "user-1",
        adminRole := false,
        eventId := "11111111-2222-3333-4444-555555555555",
        sheetsUrl := "https://docs.google.com/spreadsheets/d/abc",
        eventVisible := fun _ => true }
      { fetchProgram := FetchOutcome.netError "x"
        fetchDeltakere := FetchOutcome.netError "x"
        fetchUtstillere := FetchOutcome.netError "x"
        parseCsv := fun _ => []
        programInsertError := none
        participantsInsertError := none
        exhibitorsInsertError := none
        jsDateFallback := fun _ => none }
      (Store.mk [] [] [] ["e1"] ()) =
    SyncResponse.early 403 (Store.mk [] [] [] ["e1"] ()) :=
  C2_admin_gate_403_no_mutation Unit _ _ (Store.mk [] [] [] ["e1"] ())
    "Bearer tok" "user-1" rfl rfl rfl

theorem filter_filter_self {β : Type} (p : β → Bool) (l : List β) :
    (l.filter p).filter p = l.filter p := by
  rw [List.filter_filter]
  exact List.filter_congr (fun a _ => by cases hp : p a <;> simp [hp])

theorem mapWithIdx_forall {γ : Type} (f : Nat → Row → γ) (P : γ → Prop)
    (hf : ∀ i r, P (f i r)) :
    ∀ (l : List Row) (n : Nat), ∀ a ∈ mapWithIdx f n l, P a := by
  intro l
  induction l with
  | nil => intro n a ha; simp [mapWithIdx] at ha
  | cons r rs ih =>
    intro n a ha
    rcases List.mem_cons.mp ha with h | h
    · exact h ▸ hf n r
    · exact ih (n + 1) a h

theorem syncProgramItems_event_id (fb : String → Option String)
    (eid : String) (rows : List Row) :
    ∀ it ∈ syncProgramItems fb eid rows, it.event_id = eid := by
  intro it hit
  have hm : it ∈ programMapped fb eid rows := List.mem_of_mem_filter hit
  exact mapWithIdx_forall (fun i r => buildProgramItem fb eid r i)
    (fun a => a.event_id = eid) (fun i r => rfl) (prepRows rows) 0 it hm

theorem syncParticipants_event_id (eid : String) (rows : List Row) :
    ∀ it ∈ syncParticipants eid rows, it.event_id = eid := by
  intro it hit
  have hm : it ∈ participantsMapped eid rows := List.mem_of_mem_filter hit
  exact mapWithIdx_forall (fun i r => buildParticipant eid r i)
    (fun a => a.event_id = eid) (fun i r => rfl) (prepRows rows) 0 it hm

theorem syncExhibitors_event_id (eid : String) (rows : List Row) :
    ∀ it ∈ syncExhibitors eid rows, it.event_id = eid := by
  intro it hit
  have hm : it ∈ exhibitorsMapped eid rows := List.mem_of_mem_filter hit
  exact mapWithIdx_forall (fun i r => buildExhibitor eid r i)
    (fun a => a.event_id = eid) (fun i r => rfl) (prepRows rows) 0 it hm

theorem replace_filter_frame {β : Type} (eidOf : β → String) (eid : String)
    (old inserted : List β) (hin : ∀ it ∈ inserted, eidOf it = eid) :
    ((old.filter (fun p => eidOf p ≠ eid)) ++ inserted).filter
        (fun p => eidOf p ≠ eid) =
      old.filter (fun p => eidOf p ≠ eid) := by
  rw [List.filter_append, filter_filter_self]
  have hnil : inserted.filter (fun p => eidOf p ≠ eid) = [] := by
    rw [List.filter_eq_nil_iff]
    intro a ha
    simp [hin a ha]
  rw [hnil, List.append_nil]

theorem runProgramSync_frame {α : Type} (env : SyncEnv) (eid : String)
    (db : Store α) :
    (runProgramSync env eid db).1.participants = db.participants ∧
    (runProgramSync env eid db).1.exhibitors = db.exhibitors ∧
    (runProgramSync env eid db).1.events = db.events ∧
    (runProgramSync env eid db).1.other = db.other ∧
    (runProgramSync env eid db).1.program_items.filter
        (fun p => p.event_id ≠ eid) =
      db.program_items.filter (fun p => p.event_id ≠ eid) := by
  unfold runProgramSync
  cases env.fetchProgram with
  | netError m => exact ⟨rfl, rfl, rfl, rfl, rfl⟩
  | response ok st cl body =>
    dsimp only
    split
    · exact ⟨rfl, rfl, rfl, rfl, rfl⟩
    · split
      · exact ⟨rfl, rfl, rfl, rfl, rfl⟩
      · split
        · exact ⟨rfl, rfl, rfl, rfl, rfl⟩
        · split
          · exact ⟨rfl, rfl, rfl, rfl, rfl⟩
          · split
            · exact ⟨rfl, rfl, rfl, rfl, filter_filter_self _ _⟩
            · exact ⟨rfl, rfl, rfl, rfl,
                replace_filter_frame (fun p => p.event_id) eid
                  db.program_items _
                  (syncProgramItems_event_id env.jsDateFallback eid _)⟩

theorem runParticipantsSync_frame {α : Type} (env : SyncEnv) (eid : String)
    (db : Store α) :
    (runParticipantsSync env eid db).1.program_items = db.program_items ∧
    (runParticipantsSync env eid db).1.exhibitors = db.exhibitors ∧
    (runParticipantsSync env eid db).1.events = db.events ∧
    (runParticipantsSync env eid db).1.other = db.other ∧
    (runParticipantsSync env eid db).1.participants.filter
        (fun p => p.event_id ≠ eid) =
      db.participants.filter (fun p => p.event_id ≠ eid) := by
  unfold runParticipantsSync
  cases env.fetchDeltakere with
  | netError m => exact ⟨rfl, rfl, rfl, rfl, rfl⟩
  | response ok st cl body =>
    dsimp only
    split
    · exact ⟨rfl, rfl, rfl, rfl, rfl⟩
    · split
      · exact ⟨rfl, rfl, rfl, rfl, rfl⟩
      · split
        · exact ⟨rfl, rfl, rfl, rfl, rfl⟩
        · split
          · exact ⟨rfl, rfl, rfl, rfl, rfl⟩
          · split
            · exact ⟨rfl, rfl, rfl, rfl, filter_filter_self _ _⟩
            · exact ⟨rfl, rfl, rfl, rfl,
                replace_filter_frame (fun p => p.event_id) eid
                  db.participants _ (syncParticipants_event_id eid _)⟩

theorem runExhibitorsSync_frame {α : Type} (env : SyncEnv) (eid : String)
    (db : Store α) :
    (runExhibitorsSync env eid db).1.program_items = db.program_items ∧
    (runExhibitorsSync env eid db).1.participants = db.participants ∧
    (runExhibitorsSync env eid db).1.events = db.events ∧
    (runExhibitorsSync env eid db).1.other = db.other ∧
    (runExhibitorsSync env eid db).1.exhibitors.filter
        (fun p => p.event_id ≠ eid) =
      db.exhibitors.filter (fun p => p.event_id ≠ eid) := by
  unfold runExhibitorsSync
  cases env.fetchUtstillere with
  | netError m => exact ⟨rfl, rfl, rfl, rfl, rfl⟩
  | response ok st cl body =>
    dsimp only
    split
    · exact ⟨rfl, rfl, rfl, rfl, rfl⟩
    · split
      · exact ⟨rfl, rfl, rfl, rfl, rfl⟩
      · split
        · exact ⟨rfl, rfl, rfl, rfl, rfl⟩
        · split
          · exact ⟨rfl, rfl, rfl, rfl, rfl⟩
          · split
            · exact ⟨rfl, rfl, rfl, rfl, filter_filter_self _ _⟩
            · exact ⟨rfl, rfl, rfl, rfl,
                replace_filter_frame (fun p => p.event_id) eid
                  db.exhibitors _ (syncExhibitors_event_id eid _)⟩

/-- Claim C9: every store mutation performed by a sync is scoped to the
requested Event: the events table, every table outside the three entity
tables (the abstract remainder), and every entity row belonging to a
different Event are left exactly as they were. -/
theorem C9_event_scoped_frame :
    ∀ (α : Type) (env : SyncEnv) (eid : String) (db : Store α),
      (runSync env eid db).1.other = db.other ∧
      (runSync env eid db).1.events = db.events ∧
      (runSync env eid db).1.program_items.filter
          (fun p => p.event_id ≠ eid) =
        db.program_items.filter (fun p => p.event_id ≠ eid) ∧
      (runSync env eid db).1.participants.filter
          (fun p => p.event_id ≠ eid) =
        db.participants.filter (fun p => p.event_id ≠ eid) ∧
      (runSync env eid db).1.exhibitors.filter
          (fun p => p.event_id ≠ eid) =
        db.exhibitors.filter (fun p => p.event_id ≠ eid) := by
  intro α env eid db
  obtain ⟨hp1, hp2, hp3, hp4, hp5⟩ := runProgramSync_frame env eid db
  obtain ⟨hd1, hd2, hd3, hd4, hd5⟩ :=
    runParticipantsSync_frame env eid (runProgramSync env eid db).1
  obtain ⟨he1, he2, he3, he4, he5⟩ :=
    runExhibitorsSync_frame env eid
      (runParticipantsSync env eid (runProgramSync env eid db).1).1
  refine ⟨?_, ?_, ?_, ?_, ?_⟩
  · exact he4.trans (hd4.trans hp4)
  · exact he3.trans (hd3.trans hp3)
  · show (runExhibitorsSync env eid _).1.program_items.filter _ = _
    rw [he1, hd1, hp5]
  · show (runExhibitorsSync env eid _).1.participants.filter _ = _
    rw [he2, hd5, hp1]
  · show (runExhibitorsSync env eid _).1.exhibitors.filter _ = _
    rw [he5, hd2, hp2]

end MEF
